import Mathlib

/-!
# Verification of the SDR automation core

A shallow embedding of the SDR bot's core subsystems — the inbound pipeline
(`sdr/pipeline.py`), the local idempotency ledger (`sdr/db.py`), contact
deduplication (`sdr/crm/dedup.py`), the outbound sender loop
(`sdr/outbound.py`), the follow-up cadence engine (`sdr/followup.py`) and the
self-learning module (`sdr/ai/learner.py`) — together with theorems settling
the frozen claims about them.

Modelling conventions:
* Python `datetime` values are modelled as abstract `Nat` instants; date
  formatting (`strftime`) is dropped since no claim depends on the textual
  form.  A Python `datetime` is always truthy, so guards of the form
  `if message.received_at:` on a required datetime field are always taken.
* Python floats carrying edit distances / confidences are modelled as `ℚ`.
* Airtable record ids are modelled as `Nat`, assigned from a counter in the
  CRM state.
* `dict`-typed Airtable field updates are modelled as structures of `Option`
  fields: `none` means "key absent from the dict".
* Python string truthiness (`if s:`) is `s ≠ ""` / `Option.isSome` plus
  non-emptiness, captured by the `strTruthy` helper.
* External adapters (the LLM classifier/drafter, the enricher, the channel
  sender, `difflib.SequenceMatcher.ratio`) are parameters of the model,
  fallible ones returning `Except String _` to mirror Python exceptions.
-/

namespace SDR

/-- `sdr/models.py` `SourceChannel`. -/
inductive SourceChannel
  | gmail
  | linkedin
  | both
  deriving DecidableEq, Repr

/-- The `.value` string of a `SourceChannel`. -/
def SourceChannel.str : SourceChannel → String
  | .gmail => "Gmail"
  | .linkedin => "LinkedIn"
  | .both => "Both"

/-- `sdr/models.py` `MessageDirection`. -/
inductive MessageDirection
  | inbound
  | outbound
  deriving DecidableEq, Repr

/-- `sdr/models.py` `LeadCategory`. -/
inductive LeadCategory
  | hot
  | warm
  | cold
  | notALead
  deriving DecidableEq, Repr

/-- `sdr/models.py` `ConversationStage`. -/
inductive ConversationStage
  | new
  | engaging
  | qualifying
  | booking
  | followUp
  | nurture
  | closedWon
  | closedLost
  deriving DecidableEq, Repr

/-- `sdr/models.py` `MessageStatus`. -/
inductive MessageStatus
  | statusNew
  | processing
  | draftReady
  | approved
  | rejected
  | sent
  | failed
  deriving DecidableEq, Repr

/-- Python truthiness of an `Optional[str]` field: `None` and `""` are falsy. -/
def strTruthy : Option String → Bool
  | none => false
  | some s => !s.isEmpty

/-- `sdr/models.py` `InboundMessage` (fields used by the core; `received_at`
is a required datetime, modelled as a `Nat` instant). -/
structure InboundMessage where
  source : SourceChannel
  sourceMessageId : String
  senderName : String
  senderEmail : Option String := none
  senderLinkedinUrl : Option String := none
  senderTitle : Option String := none
  senderCompany : Option String := none
  subject : Option String := none
  body : String
  threadContext : String := ""
  receivedAt : Nat
  accountId : Option String := none
  deriving DecidableEq, Repr

/-- `sdr/models.py` `ContactRecord` (Airtable Contact row). -/
structure ContactRecord where
  id : Option Nat := none
  name : String
  email : Option String := none
  linkedinUrl : Option String := none
  company : Option String := none
  title : Option String := none
  sourceChannel : SourceChannel := .gmail
  leadCategory : LeadCategory := .cold
  conversationStage : ConversationStage := .new
  aiConfidence : ℚ := 0
  detectedIntent : String := ""
  signalStack : String := ""
  aiReasoning : String := ""
  firstContact : Option Nat := none
  lastContact : Option Nat := none
  interactionCount : Nat := 0
  enrichedData : String := ""
  followUpCount : Nat := 0
  followUpChannel : Option String := none
  nextFollowUpDate : Option Nat := none
  followUpStatus : String := ""
  lastOutboundAt : Option Nat := none
  deriving DecidableEq, Repr

/-- `sdr/models.py` `MessageRecord` (Airtable Message row). -/
structure MessageRecord where
  id : Option Nat := none
  contactId : Option Nat := none
  source : SourceChannel
  direction : MessageDirection
  subject : Option String := none
  body : String
  threadContext : String := ""
  draftReply : String := ""
  status : MessageStatus := .statusNew
  classification : String := ""
  conversationStage : String := ""
  aiDraftVersion : String := ""
  editDistance : Option ℚ := none
  receivedAt : Option Nat := none
  sentAt : Option Nat := none
  sendError : String := ""
  accountId : String := ""
  sourceMessageId : String := ""
  followUpNumber : Option Nat := none
  deriving DecidableEq, Repr

/-- `sdr/models.py` `AuditAction` (the subset the modelled code emits). -/
inductive AuditAction
  | messageReceived
  | contactCreated
  | contactUpdated
  | classified
  | draftCreated
  | sent
  | enriched
  | followUpCreated
  | followUpPaused
  | followUpExhausted
  | learningCycle
  deriving DecidableEq, Repr

/-! ## `sdr/db.py`: the local idempotency ledger (`processed_messages`) -/

/-- One row of the SQLite `processed_messages` table. -/
structure LedgerEntry where
  source : String
  sourceMessageId : String
  status : String := "processed"
  attempts : Nat := 1
  error : Option String := none
  airtableMessageId : Option Nat := none
  airtableContactId : Option Nat := none
  deriving DecidableEq, Repr

/-- The `processed_messages` table (row order = insertion order; the
`UNIQUE(source, source_message_id)` constraint holds by construction of the
upsert operations below). -/
abbrev Ledger := List LedgerEntry

/-- Key match for the composite `UNIQUE(source, source_message_id)` key. -/
def LedgerEntry.keyIs (e : LedgerEntry) (source sourceMessageId : String) : Bool :=
  e.source == source && e.sourceMessageId == sourceMessageId

/-- `db.is_message_processed`: true iff *any* row exists for the key,
regardless of its `status`. -/
def isMessageProcessed (ledger : Ledger) (source sourceMessageId : String) : Bool :=
  ledger.any (fun e => e.keyIs source sourceMessageId)

/-- `db.mark_message_processed`: insert-or-update.  On conflict the status is
replaced and the Airtable ids are `COALESCE`d (new value if non-null, else
the value already stored). -/
def markMessageProcessed (ledger : Ledger) (source sourceMessageId : String)
    (status : String := "processed")
    (airtableMessageId : Option Nat := none)
    (airtableContactId : Option Nat := none) : Ledger :=
  if isMessageProcessed ledger source sourceMessageId then
    ledger.map (fun e =>
      if e.keyIs source sourceMessageId then
        { e with
          status := status
          airtableMessageId := airtableMessageId.orElse (fun _ => e.airtableMessageId)
          airtableContactId := airtableContactId.orElse (fun _ => e.airtableContactId) }
      else e)
  else
    ledger ++ [{ source := source, sourceMessageId := sourceMessageId,
                 status := status, attempts := 1,
                 airtableMessageId := airtableMessageId,
                 airtableContactId := airtableContactId }]

/-- `db.mark_message_failed`: insert with status `'failed'` (attempts = 1
from the column default), or on conflict set status `'failed'`, record the
error and increment the attempt counter. -/
def markMessageFailed (ledger : Ledger) (source sourceMessageId error : String) : Ledger :=
  if isMessageProcessed ledger source sourceMessageId then
    ledger.map (fun e =>
      if e.keyIs source sourceMessageId then
        { e with status := "failed", error := some error, attempts := e.attempts + 1 }
      else e)
  else
    ledger ++ [{ source := source, sourceMessageId := sourceMessageId,
                 status := "failed", attempts := 1, error := some error }]

/-! ## `sdr/crm/airtable.py`: the CRM store

Airtable has no transactions; the model keeps the three tables the core
touches (Contacts, Messages, Audit Log) in one `CRMState`, with record ids
assigned from a counter.  Field-map (`dict`) updates are modelled as
structures of `Option` fields where `none` means "key absent". -/

/-- A `dict` of Contact field updates as passed to `update_contact`. -/
structure ContactUpdates where
  email : Option String := none
  linkedinUrl : Option String := none
  company : Option String := none
  title : Option String := none
  sourceChannel : Option SourceChannel := none
  leadCategory : Option LeadCategory := none
  conversationStage : Option ConversationStage := none
  aiConfidence : Option ℚ := none
  detectedIntent : Option String := none
  signalStack : Option String := none
  aiReasoning : Option String := none
  lastContact : Option Nat := none
  interactionCount : Option Nat := none
  enrichedData : Option String := none
  followUpStatus : Option String := none
  followUpCount : Option Nat := none
  nextFollowUpDate : Option Nat := none
  followUpChannel : Option String := none
  lastOutboundAt : Option Nat := none
  deriving DecidableEq, Repr

/-- Python truthiness of the updates dict (`if updates:`). -/
def ContactUpdates.isEmptyDict (u : ContactUpdates) : Bool :=
  u.email == none && u.linkedinUrl == none && u.company == none && u.title == none &&
  u.sourceChannel == none && u.leadCategory == none && u.conversationStage == none &&
  u.aiConfidence == none && u.detectedIntent == none && u.signalStack == none &&
  u.aiReasoning == none && u.lastContact == none && u.interactionCount == none &&
  u.enrichedData == none && u.followUpStatus == none && u.followUpCount == none &&
  u.nextFollowUpDate == none && u.followUpChannel == none && u.lastOutboundAt == none

/-- Apply a field-update dict to a Contact row (a present key replaces the
stored value, an absent key leaves it unchanged). -/
def applyContactUpdates (c : ContactRecord) (u : ContactUpdates) : ContactRecord :=
  { c with
    email := match u.email with | some v => some v | none => c.email
    linkedinUrl := match u.linkedinUrl with | some v => some v | none => c.linkedinUrl
    company := match u.company with | some v => some v | none => c.company
    title := match u.title with | some v => some v | none => c.title
    sourceChannel := u.sourceChannel.getD c.sourceChannel
    leadCategory := u.leadCategory.getD c.leadCategory
    conversationStage := u.conversationStage.getD c.conversationStage
    aiConfidence := u.aiConfidence.getD c.aiConfidence
    detectedIntent := u.detectedIntent.getD c.detectedIntent
    signalStack := u.signalStack.getD c.signalStack
    aiReasoning := u.aiReasoning.getD c.aiReasoning
    lastContact := match u.lastContact with | some v => some v | none => c.lastContact
    interactionCount := u.interactionCount.getD c.interactionCount
    enrichedData := u.enrichedData.getD c.enrichedData
    followUpStatus := u.followUpStatus.getD c.followUpStatus
    followUpCount := u.followUpCount.getD c.followUpCount
    nextFollowUpDate := match u.nextFollowUpDate with | some v => some v | none => c.nextFollowUpDate
    followUpChannel := match u.followUpChannel with | some v => some v | none => c.followUpChannel
    lastOutboundAt := match u.lastOutboundAt with | some v => some v | none => c.lastOutboundAt }

/-- A `dict` of Message field updates as passed to `update_message`. -/
structure MessageUpdates where
  status : Option MessageStatus := none
  sendError : Option String := none
  sentAt : Option Nat := none
  editDistance : Option ℚ := none
  deriving DecidableEq, Repr

/-- Apply a field-update dict to a Message row. -/
def applyMessageUpdates (m : MessageRecord) (u : MessageUpdates) : MessageRecord :=
  { m with
    status := u.status.getD m.status
    sendError := u.sendError.getD m.sendError
    sentAt := match u.sentAt with | some v => some v | none => m.sentAt
    editDistance := match u.editDistance with | some v => some v | none => m.editDistance }

/-- The state of the Airtable base: Contacts, Messages and the audit log
(modelled as the list of logged actions).  `nextId` feeds record ids. -/
structure CRMState where
  contacts : List ContactRecord := []
  messages : List MessageRecord := []
  audits : List AuditAction := []
  nextId : Nat := 0
  deriving DecidableEq, Repr

/-- `AirtableCRM.log_audit`. -/
def logAudit (st : CRMState) (a : AuditAction) : CRMState :=
  { st with audits := st.audits ++ [a] }

/-- `AirtableCRM.find_contact_by_email`: first record whose `Email` field
equals the query (an absent field reads as `""` in an Airtable formula). -/
def findContactByEmail (st : CRMState) (email : String) : Option ContactRecord :=
  st.contacts.find? (fun c => c.email.getD "" == email)

/-- `AirtableCRM.find_contact_by_linkedin_url`. -/
def findContactByLinkedinUrl (st : CRMState) (url : String) : Option ContactRecord :=
  st.contacts.find? (fun c => c.linkedinUrl.getD "" == url)

/-- ASCII lower-casing of one character (Airtable `LOWER`, Python
`str.lower`; the data in play is ASCII). -/
def charLower (c : Char) : Char :=
  if 65 ≤ c.toNat && c.toNat ≤ 90 then Char.ofNat (c.toNat + 32) else c

/-- Lower-casing of a string as its character list. -/
def lowerChars (l : List Char) : List Char := l.map charLower

/-- `needle` occurs at the head of `hay`. -/
def charsStartWith : List Char → List Char → Bool
  | [], _ => true
  | _ :: _, [] => false
  | a :: as, b :: bs => a == b && charsStartWith as bs

/-- `needle` occurs somewhere in `hay` (Airtable `FIND(...) > 0`). -/
def charsContain (needle : List Char) : List Char → Bool
  | [] => charsStartWith needle []
  | b :: bs => charsStartWith needle (b :: bs) || charsContain needle bs

/-- `AirtableCRM.find_contacts_by_name`:
`FIND(LOWER(name), LOWER({Name})) > 0` — case-insensitive substring match
(the caller in `dedup.py` only queries non-empty names). -/
def findContactsByName (st : CRMState) (name : String) : List ContactRecord :=
  st.contacts.filter (fun c =>
    charsContain (lowerChars name.toList) (lowerChars c.name.toList))

/-- `AirtableCRM._contact_to_fields` followed by a record update: the field
dict always carries the scalar fields and carries the optional/numeric ones
only when truthy; applying it to an existing record patches exactly the
present keys.  The target record's id is kept. -/
def contactFieldsPatch (target c : ContactRecord) : ContactRecord :=
  { target with
    name := c.name
    sourceChannel := c.sourceChannel
    leadCategory := c.leadCategory
    conversationStage := c.conversationStage
    aiConfidence := c.aiConfidence
    detectedIntent := c.detectedIntent
    signalStack := c.signalStack
    aiReasoning := c.aiReasoning
    interactionCount := c.interactionCount
    enrichedData := c.enrichedData
    email := if strTruthy c.email then c.email else target.email
    linkedinUrl := if strTruthy c.linkedinUrl then c.linkedinUrl else target.linkedinUrl
    company := if strTruthy c.company then c.company else target.company
    title := if strTruthy c.title then c.title else target.title
    firstContact := if c.firstContact.isSome then c.firstContact else target.firstContact
    lastContact := if c.lastContact.isSome then c.lastContact else target.lastContact
    followUpCount := if c.followUpCount != 0 then c.followUpCount else target.followUpCount
    followUpChannel := if strTruthy c.followUpChannel then c.followUpChannel else target.followUpChannel
    nextFollowUpDate := if c.nextFollowUpDate.isSome then c.nextFollowUpDate else target.nextFollowUpDate
    followUpStatus := if !c.followUpStatus.isEmpty then c.followUpStatus else target.followUpStatus
    lastOutboundAt := if c.lastOutboundAt.isSome then c.lastOutboundAt else target.lastOutboundAt }

/-- Replace the contact row carrying `cid` using `f`. -/
def mapContact (st : CRMState) (cid : Nat) (f : ContactRecord → ContactRecord) : CRMState :=
  { st with contacts := st.contacts.map (fun c => if c.id == some cid then f c else c) }

/-- `AirtableCRM.update_contact`. -/
def updateContact (st : CRMState) (cid : Nat) (u : ContactUpdates) : CRMState :=
  mapContact st cid (fun c => applyContactUpdates c u)

/-- `AirtableCRM.upsert_contact` for a record with no id yet (the pipeline's
new-contact path): look up by email, then by LinkedIn URL; update the found
record with the new field dict, else create a fresh record. -/
def upsertContact (st : CRMState) (c : ContactRecord) : ContactRecord × CRMState :=
  let existing :=
    match (if strTruthy c.email then findContactByEmail st (c.email.getD "") else none) with
    | some e => some e
    | none => if strTruthy c.linkedinUrl then findContactByLinkedinUrl st (c.linkedinUrl.getD "") else none
  match existing with
  | some e =>
    let merged := contactFieldsPatch e c
    (merged, { st with contacts := st.contacts.map (fun x => if x.id == e.id then merged else x) })
  | none =>
    let created := { c with id := some st.nextId }
    (created, { st with contacts := st.contacts ++ [created], nextId := st.nextId + 1 })

/-- `AirtableCRM.get_message`. -/
def getMessage (st : CRMState) (mid : Nat) : Option MessageRecord :=
  st.messages.find? (fun m => m.id == some mid)

/-- `AirtableCRM.find_message_by_source_id`. -/
def findMessageBySourceId (st : CRMState) (sourceMessageId : String) : Option MessageRecord :=
  st.messages.find? (fun m => m.sourceMessageId == sourceMessageId)

/-- `AirtableCRM.create_message`: an *inbound* message whose
`Source Message ID` already exists returns the existing row instead of
creating a duplicate; outbound messages skip the dedup check. -/
def createMessage (st : CRMState) (m : MessageRecord) : MessageRecord × CRMState :=
  match (if !m.sourceMessageId.isEmpty && m.direction == .inbound
         then findMessageBySourceId st m.sourceMessageId else none) with
  | some existing => (existing, st)
  | none =>
    let created := { m with id := some st.nextId }
    (created, { st with messages := st.messages ++ [created], nextId := st.nextId + 1 })

/-- `AirtableCRM.update_message`. -/
def updateMessage (st : CRMState) (mid : Nat) (u : MessageUpdates) : CRMState :=
  { st with messages := st.messages.map (fun m => if m.id == some mid then applyMessageUpdates m u else m) }

/-- `AirtableCRM.get_approved_messages`. -/
def getApprovedMessages (st : CRMState) : List MessageRecord :=
  st.messages.filter (fun m => m.status == .approved)

/-- `AirtableCRM.get_contact_for_message`: the contact linked from a message. -/
def getContactForMessage (st : CRMState) (mid : Nat) : Option ContactRecord :=
  match getMessage st mid with
  | some m =>
    match m.contactId with
    | some cid => st.contacts.find? (fun c => c.id == some cid)
    | none => none
  | none => none

/-- `AirtableCRM.get_contacts_for_followup`: active cadence and
`Next Follow-Up Date` no later than today (`IS_BEFORE(date, TODAY()+1)`;
a blank date never satisfies the formula). -/
def getContactsForFollowup (st : CRMState) (today : Nat) : List ContactRecord :=
  st.contacts.filter (fun c =>
    c.followUpStatus == "Active" &&
    (match c.nextFollowUpDate with | some d => d ≤ today | none => false))

/-- `AirtableCRM.get_messages_for_contact`, optional direction filter. -/
def getMessagesForContact (st : CRMState) (cid : Nat)
    (direction : Option MessageDirection := none) : List MessageRecord :=
  st.messages.filter (fun m =>
    m.contactId == some cid &&
    (match direction with | some d => m.direction == d | none => true))

/-! ## `sdr/crm/dedup.py`: the contact deduplicator -/

/-- `ContactDeduplicator.find_existing_contact`: email, then LinkedIn URL,
then name (skipped for the literal `"Unknown"`); a unique name candidate
matches, multiple candidates are disambiguated by the first exact
case-insensitive company hit, anything else is no match. -/
def findExistingContact (st : CRMState) (msg : InboundMessage) : Option ContactRecord :=
  match (if strTruthy msg.senderEmail then findContactByEmail st (msg.senderEmail.getD "") else none) with
  | some c => some c
  | none =>
  match (if strTruthy msg.senderLinkedinUrl then findContactByLinkedinUrl st (msg.senderLinkedinUrl.getD "") else none) with
  | some c => some c
  | none =>
    if !msg.senderName.isEmpty && msg.senderName != "Unknown" then
      let candidates := findContactsByName st msg.senderName
      if candidates.length == 1 then
        candidates.head?
      else if candidates.length > 1 then
        if strTruthy msg.senderCompany then
          candidates.find? (fun c =>
            strTruthy c.company &&
            lowerChars (c.company.getD "").toList == lowerChars (msg.senderCompany.getD "").toList)
        else none
      else none
    else none

/-- `ContactDeduplicator.should_update_source_channel`. -/
def shouldUpdateSourceChannel (existing : ContactRecord) (msg : InboundMessage) : Bool :=
  if existing.sourceChannel == .both then false
  else if existing.sourceChannel == .gmail && msg.source == .linkedin then true
  else if existing.sourceChannel == .linkedin && msg.source == .gmail then true
  else false

/-- `ContactDeduplicator.merge_contact_data`: fill only currently-empty
fields, maybe promote the source channel, always bump `Last Contact`
(`received_at` is a required datetime, hence always truthy) and increment
`Interaction Count`. -/
def mergeContactData (existing : ContactRecord) (msg : InboundMessage) : ContactUpdates :=
  { email := if !strTruthy existing.email && strTruthy msg.senderEmail then msg.senderEmail else none
    linkedinUrl := if !strTruthy existing.linkedinUrl && strTruthy msg.senderLinkedinUrl then msg.senderLinkedinUrl else none
    company := if !strTruthy existing.company && strTruthy msg.senderCompany then msg.senderCompany else none
    title := if !strTruthy existing.title && strTruthy msg.senderTitle then msg.senderTitle else none
    sourceChannel := if shouldUpdateSourceChannel existing msg then some .both else none
    lastContact := some msg.receivedAt
    interactionCount := some (existing.interactionCount + 1) }

/-! ## `sdr/pipeline.py`: the inbound pipeline -/

/-- The `.value` string of a `ConversationStage`. -/
def ConversationStage.str : ConversationStage → String
  | .new => "New"
  | .engaging => "Engaging"
  | .qualifying => "Qualifying"
  | .booking => "Booking"
  | .followUp => "Follow Up"
  | .nurture => "Nurture"
  | .closedWon => "Closed Won"
  | .closedLost => "Closed Lost"

/-- The `.value` string of a `LeadCategory`. -/
def LeadCategory.str : LeadCategory → String
  | .hot => "Hot"
  | .warm => "Warm"
  | .cold => "Cold"
  | .notALead => "Not a Lead"

/-- `sdr/models.py` `LeadClassification`. -/
structure LeadClassification where
  category : LeadCategory
  confidence : ℚ
  reasoning : String
  detectedIntent : String
  detectedSignals : List String
  shouldReply : Bool
  conversationStage : ConversationStage
  icpMatchScore : ℚ
  deriving DecidableEq, Repr

/-- `sdr/models.py` `DraftReply`. -/
structure DraftReply where
  replyText : String
  strategyNotes : String := ""
  deriving DecidableEq, Repr

/-- The enricher's result `dict`: the opaque serialized payload
(`json.dumps(data)`) plus the hoisted structured keys. -/
structure EnrichData where
  payload : String
  title : Option String := none
  company : Option String := none
  linkedinUrl : Option String := none
  email : Option String := none
  deriving DecidableEq, Repr

/-- The external adapters the pipeline consumes: the LLM classifier and
drafter (fallible — a raised exception is an `Except.error`), and the
optional enricher (`enrich(email, linkedin_url, name, company)`, here handed
the contact the arguments are read from; `.ok none` models a falsy result). -/
structure PipelineEnv where
  classify : InboundMessage → String → ConversationStage → Except String LeadClassification
  draft : InboundMessage → LeadClassification → String → Except String DraftReply
  enrich : Option (ContactRecord → Except String (Option EnrichData))

/-- Combined durable state visible to the pipeline: the Airtable base, the
SQLite idempotency ledger and the local audit log (modelled as a count). -/
structure SysState where
  crm : CRMState := {}
  ledger : Ledger := []
  localAudits : Nat := 0
  deriving DecidableEq, Repr

/-- `InboundPipeline._upsert_contact`: dedup-find and merge, or create.  The
merge path returns the *pre-update* record object, exactly as the source
does. -/
def upsertContactPipeline (st : SysState) (msg : InboundMessage) : ContactRecord × SysState :=
  match findExistingContact st.crm msg with
  | some existing =>
    let updates := mergeContactData existing msg
    if !updates.isEmptyDict then
      let crm1 := updateContact st.crm (existing.id.getD 0) updates
      (existing, { st with crm := logAudit crm1 .contactUpdated })
    else
      (existing, st)
  | none =>
    let contact : ContactRecord := {
      name := msg.senderName
      email := msg.senderEmail
      linkedinUrl := msg.senderLinkedinUrl
      company := msg.senderCompany
      title := msg.senderTitle
      sourceChannel := msg.source
      conversationStage := .new
      firstContact := some msg.receivedAt
      lastContact := some msg.receivedAt
      interactionCount := 1 }
    let (created, crm1) := upsertContact st.crm contact
    (created, { st with crm := logAudit crm1 .contactCreated })

/-- `InboundPipeline._enrich_contact`: best-effort; any exception is
swallowed and yields `""`.  On data, hoisted fields are written only when
currently empty on the contact, the raw payload always. -/
def enrichContactStep (enrichFn : ContactRecord → Except String (Option EnrichData))
    (st : SysState) (contact : ContactRecord) : String × SysState :=
  match enrichFn contact with
  | .error _ => ("", st)
  | .ok none => ("", st)
  | .ok (some data) =>
    let updates : ContactUpdates := {
      enrichedData := some data.payload
      title := if strTruthy data.title && !strTruthy contact.title then data.title else none
      company := if strTruthy data.company && !strTruthy contact.company then data.company else none
      linkedinUrl := if strTruthy data.linkedinUrl && !strTruthy contact.linkedinUrl then data.linkedinUrl else none
      email := if strTruthy data.email && !strTruthy contact.email then data.email else none }
    let crm1 := updateContact st.crm (contact.id.getD 0) updates
    (data.payload, { st with crm := logAudit crm1 .enriched })

/-- The pipeline's failure path: mark the ledger `failed` and return `None`. -/
def markFailedState (st : SysState) (msg : InboundMessage) (error : String) : SysState :=
  { st with ledger := markMessageFailed st.ledger msg.source.str msg.sourceMessageId error }

/-- Opaque serialization of the detected-signal list
(`json.dumps(classification.detected_signals)`). -/
def signalsJson (signals : List String) : String :=
  String.intercalate ", " signals

/-- Steps 6–9 of `InboundPipeline.process_message` (the block after a
successful classification/drafting): create the message record, update the
contact with the classification, mark the ledger `processed`, write the
audit entries, and return the created message id. -/
def finalizeMessage (st2 : SysState) (msg : InboundMessage) (contact : ContactRecord)
    (classification : LeadClassification) (draftReply : String) (status : MessageStatus) :
    Option Nat × SysState :=
  let msgRecord : MessageRecord := {
    contactId := contact.id
    source := msg.source
    direction := .inbound
    subject := msg.subject
    body := msg.body
    threadContext := msg.threadContext
    draftReply := draftReply
    status := status
    classification := classification.category.str
    conversationStage := classification.conversationStage.str
    aiDraftVersion := draftReply
    receivedAt := some msg.receivedAt
    accountId := msg.accountId.getD ""
    sourceMessageId := msg.sourceMessageId }
  let (createdMsg, crm3) := createMessage st2.crm msgRecord
  let contactUpdates : ContactUpdates := {
    leadCategory := some classification.category
    conversationStage := some classification.conversationStage
    aiConfidence := some classification.confidence
    detectedIntent := some classification.detectedIntent
    signalStack := some (signalsJson classification.detectedSignals)
    aiReasoning := some classification.reasoning
    lastContact := some msg.receivedAt }
  let crm4 := updateContact crm3 (contact.id.getD 0) contactUpdates
  let ledger2 := markMessageProcessed st2.ledger msg.source.str msg.sourceMessageId
    "processed" createdMsg.id contact.id
  let crm5 := logAudit (logAudit crm4 .messageReceived) .classified
  let crm6 := if !draftReply.isEmpty then logAudit crm5 .draftCreated else crm5
  (some (createdMsg.id.getD 0),
   { crm := crm6, ledger := ledger2, localAudits := st2.localAudits + 1 })

/-- `InboundPipeline.process_message`: idempotency check, contact upsert,
best-effort enrichment, classification, conditional drafting, message
creation, contact classification update, ledger mark, audits.  Returns the
created message id, or `none` when skipped or failed. -/
def processMessage (env : PipelineEnv) (st : SysState) (msg : InboundMessage) :
    Option Nat × SysState :=
  if isMessageProcessed st.ledger msg.source.str msg.sourceMessageId then
    (none, st)
  else
    let (contact, st1) := upsertContactPipeline st msg
    let (enrichmentData, st2) :=
      match env.enrich with
      | some enrichFn => enrichContactStep enrichFn st1 contact
      | none => ("", st1)
    match env.classify msg enrichmentData contact.conversationStage with
    | .error e => (none, markFailedState st2 msg e)
    | .ok classification =>
      let drafted : Except String (String × MessageStatus) :=
        if classification.shouldReply then
          match env.draft msg classification enrichmentData with
          | .error e => .error e
          | .ok d => .ok (d.replyText, .draftReady)
        else
          .ok ("", .statusNew)
      match drafted with
      | .error e => (none, markFailedState st2 msg e)
      | .ok (draftReply, status) => finalizeMessage st2 msg contact classification draftReply status

/-- `process_batch` summary stats. -/
structure BatchStats where
  total : Nat
  processed : Nat
  skipped : Nat
  failed : Nat
  deriving DecidableEq, Repr

/-- One iteration of the `process_batch` loop: a `None` result is re-checked
against the ledger to decide skipped vs failed. -/
def processBatchStep (env : PipelineEnv) (acc : SysState × BatchStats)
    (m : InboundMessage) : SysState × BatchStats :=
  let (result, s2) := processMessage env acc.1 m
  match result with
  | some _ => (s2, { acc.2 with processed := acc.2.processed + 1 })
  | none =>
    if isMessageProcessed s2.ledger m.source.str m.sourceMessageId then
      (s2, { acc.2 with skipped := acc.2.skipped + 1 })
    else
      (s2, { acc.2 with failed := acc.2.failed + 1 })

/-- `InboundPipeline.process_batch`: process each message independently; one
failure does not abort the batch. -/
def processBatch (env : PipelineEnv) (st : SysState) (msgs : List InboundMessage) :
    BatchStats × SysState :=
  let (stFinal, stats) := msgs.foldl (processBatchStep env)
    (st, { total := msgs.length, processed := 0, skipped := 0, failed := 0 })
  (stats, stFinal)

/-! ## `sdr/outbound.py`: the outbound sender loop -/

/-- `round(x, 3)` on the rational model of the float. -/
def round3 (q : ℚ) : ℚ := (round (q * 1000) : ℤ) / 1000

/-- `outbound.compute_edit_distance`, parameterized by the similarity ratio
(`difflib.SequenceMatcher(None, a, b).ratio()`, an external collaborator). -/
def computeEditDistance (ratio : String → String → ℚ) (original edited : String) : ℚ :=
  if original.isEmpty && edited.isEmpty then 0
  else if original.isEmpty || edited.isEmpty then 1
  else round3 (1 - ratio original edited)

/-- A call to the channel sender (`MessageSender.send`). -/
inductive SendReq
  | gmailSend (toEmail subject body threadId : String)
  | linkedinSend (body accountId chatId : String)
  deriving DecidableEq, Repr

/-- External collaborators of the outbound loop: the similarity ratio, the
channel sender (fallible) and the wall clock. -/
structure OutboundEnv where
  ratio : String → String → ℚ
  send : SendReq → Except String Unit
  now : Nat

/-- Tail of the per-message send path: dispatch the send, then either mark
`Failed` with the error text, or mark `Sent` (stamping the send time and,
when computed, the edit distance), advance the linked contact and audit.
Returns (messages sent, new state, send attempts). -/
def outboundFinish (env : OutboundEnv) (st : CRMState) (mid : Nat) (editDist : Option ℚ)
    (reqs : List SendReq) (sendRes : Except String Unit) : Nat × CRMState × List SendReq :=
  match sendRes with
  | .error e =>
    (0, updateMessage st mid { status := some .failed, sendError := some e }, reqs)
  | .ok _ =>
    let st1 := updateMessage st mid
      { status := some .sent, sentAt := some env.now, editDistance := editDist }
    let st2 :=
      match getContactForMessage st1 mid with
      | some ct =>
        updateContact st1 (ct.id.getD 0)
          { lastOutboundAt := some env.now
            conversationStage := if ct.conversationStage == .new then some .engaging else none }
      | none => st1
    (1, logAudit st2 .sent, reqs)

/-- One iteration of the `process_approved_messages` loop: re-fetch and
re-check the status, fail empty drafts, compute the edit distance when an AI
draft version exists, route by channel (Gmail needs a linked contact with an
email) and finish the send. -/
def outboundStep (env : OutboundEnv) (st : CRMState) (m : MessageRecord) :
    Nat × CRMState × List SendReq :=
  let mid := m.id.getD 0
  match getMessage st mid with
  | none => (0, st, [])
  | some current =>
    if current.status != .approved then (0, st, [])
    else
      let replyText := current.draftReply
      if replyText.isEmpty then
        (0, updateMessage st mid
              { status := some .failed, sendError := some "Draft reply is empty" }, [])
      else
        let editDist : Option ℚ :=
          if !current.aiDraftVersion.isEmpty then
            some (computeEditDistance env.ratio current.aiDraftVersion replyText)
          else none
        match current.source with
        | .gmail =>
          match getContactForMessage st mid with
          | some ct =>
            if strTruthy ct.email then
              let req := SendReq.gmailSend (ct.email.getD "")
                (("Re: " ++ current.subject.getD "").trim) replyText current.sourceMessageId
              outboundFinish env st mid editDist [req] (env.send req)
            else
              (0, updateMessage st mid
                    { status := some .failed,
                      sendError := some "No recipient email found on linked contact" }, [])
          | none =>
            (0, updateMessage st mid
                  { status := some .failed,
                    sendError := some "No recipient email found on linked contact" }, [])
        | .linkedin =>
          let req := SendReq.linkedinSend replyText current.accountId current.sourceMessageId
          outboundFinish env st mid editDist [req] (env.send req)
        | .both =>
          -- neither `if channel == "Gmail"` nor `elif channel == "LinkedIn"`
          -- fires: the code falls through and marks the message Sent
          -- without ever calling the sender.
          outboundFinish env st mid editDist [] (.ok ())

/-- `outbound.process_approved_messages`: fold the per-message step over the
`Status = "Approved"` query; returns the number successfully sent. -/
def processApprovedMessages (env : OutboundEnv) (st : CRMState) :
    Nat × CRMState × List SendReq :=
  (getApprovedMessages st).foldl
    (fun acc m =>
      let (cnt, s, log) := acc
      let (c2, s2, log2) := outboundStep env s m
      (cnt + c2, s2, log ++ log2))
    (0, st, [])

/-! ## `sdr/followup.py`: the follow-up cadence engine (Phase B)

The daily job's due-follow-up phase.  (Phase A activation and the Airtable
stale-contact query are outside the frozen claims and are not modelled.) -/

/-- `sdr/config.py` `FollowUpConfig` (the fields the engine reads). -/
structure FollowUpConfig where
  totalFollowups : Nat := 8
  linkedinFollowups : Nat := 4
  daysBetween : Nat := 3
  daysBeforeActivation : Nat := 3
  autoApproveThreshold : Nat := 2
  deriving DecidableEq, Repr

/-- Stable insertion into a descending-sorted list: the new element goes
after existing elements with an equal key, matching Python's stable
`list.sort(key=…, reverse=True)`. -/
def insertDescBy {α : Type} (key : α → Nat) (x : α) : List α → List α
  | [] => [x]
  | y :: ys => if key y < key x then x :: y :: ys else y :: insertDescBy key x ys

/-- Stable descending sort by a `Nat` key. -/
def sortDescBy {α : Type} (key : α → Nat) (l : List α) : List α :=
  l.foldl (fun acc x => insertDescBy key x acc) []

/-- Stable insertion into an ascending-sorted list. -/
def insertAscBy {α : Type} (key : α → Nat) (x : α) : List α → List α
  | [] => [x]
  | y :: ys => if key x < key y then x :: y :: ys else y :: insertAscBy key x ys

/-- Stable ascending sort by a `Nat` key, matching Python's stable
`sorted(…, key=…)`. -/
def sortAscBy {α : Type} (key : α → Nat) (l : List α) : List α :=
  l.foldl (fun acc x => insertAscBy key x acc) []

/-- `followup._has_recent_inbound`: any inbound message for the contact
received at or after the given instant. -/
def hasRecentInbound (st : CRMState) (cid : Nat) (sinceDate : Option Nat) : Bool :=
  match sinceDate with
  | none => false
  | some d =>
    (getMessagesForContact st cid (some .inbound)).any
      (fun m => match m.receivedAt with | some r => d ≤ r | none => false)

/-- `followup._has_pending_outbound`: a Draft Ready or Approved outbound
already exists for the contact. -/
def hasPendingOutbound (st : CRMState) (cid : Nat) : Bool :=
  (getMessagesForContact st cid (some .outbound)).any
    (fun m => m.status == .draftReady || m.status == .approved)

/-- `followup._determine_channel`: LinkedIn while under the LinkedIn quota
(falling back to email), email afterwards (falling back to LinkedIn);
`none` when neither channel has routing data on file. -/
def determineChannel (contact : ContactRecord) (config : FollowUpConfig) : Option String :=
  if contact.followUpCount < config.linkedinFollowups then
    if strTruthy contact.linkedinUrl then some "LinkedIn"
    else if strTruthy contact.email then some "Email"
    else none
  else
    if strTruthy contact.email then some "Email"
    else if strTruthy contact.linkedinUrl then some "LinkedIn"
    else none

/-- The routing dict built by `followup._get_routing_info`. -/
structure RoutingInfo where
  accountId : Option String := none
  chatId : Option String := none
  threadId : Option String := none
  deriving DecidableEq, Repr

/-- `followup._get_routing_info`: thread/chat id and account id from the
most recent message (by sent-or-received timestamp) on the chosen channel. -/
def getRoutingInfo (st : CRMState) (contact : ContactRecord) (channel : String) : RoutingInfo :=
  let srcVal := if channel == "LinkedIn" then "LinkedIn" else "Gmail"
  let channelMessages := (getMessagesForContact st (contact.id.getD 0)).filter
    (fun m => m.source.str == srcVal && !m.sourceMessageId.isEmpty)
  let sorted := sortDescBy
    (fun m => match m.sentAt with | some s => s | none => m.receivedAt.getD 0)
    channelMessages
  match sorted.head? with
  | some latest =>
    if channel == "LinkedIn" then
      { chatId := some latest.sourceMessageId, accountId := some latest.accountId }
    else
      { threadId := some latest.sourceMessageId }
  | none => {}

/-- One line of `followup._format_conversation_history` (chronological;
outbound lines use the sent draft text, inbound lines the raw body; the
final string rendering is dropped). -/
def formatConversationHistory (messages : List MessageRecord) :
    List (MessageDirection × SourceChannel × String) :=
  (sortAscBy (fun m => match m.receivedAt with | some r => r | none => m.sentAt.getD 0) messages).map
    (fun m => (m.direction, m.source,
      if m.direction == .outbound && !m.draftReply.isEmpty then m.draftReply else m.body))

/-- `followup._should_auto_approve`: at least `threshold` Sent outbound
messages carrying an edit distance, and the most recent `threshold` of them
(by sent time) all have edit distance exactly `0.0`. -/
def shouldAutoApprove (st : CRMState) (cid : Nat) (threshold : Nat) : Bool :=
  let messages := getMessagesForContact st cid (some .outbound)
  let sent := messages.filter (fun m => m.status == .sent && m.editDistance.isSome)
  if sent.length < threshold then false
  else
    ((sortDescBy (fun m => m.sentAt.getD 0) sent).take threshold).all
      (fun m => m.editDistance == some 0)

/-- External collaborators of the cadence engine: the drafting adapter
(fallible) and the wall clock. -/
structure FollowupEnv where
  config : FollowUpConfig
  today : Nat
  draft : ContactRecord → String → List (MessageDirection × SourceChannel × String) → Nat →
    Except String String

/-- Outcome of one iteration of the `_process_due_followups` loop. -/
inductive FollowupOutcome
  | paused
  | skippedPending
  | skippedNoChannel
  | skippedError (e : String)
  | created (msg : MessageRecord) (updates : ContactUpdates) (exhausted : Bool)
  deriving DecidableEq, Repr

/-- Steps 5–9 of one `_process_due_followups` iteration after a successful
draft: auto-approval decision, outbound-message creation, contact advance
(with exhaustion folded into the same update) and audits. -/
def followupCreate (env : FollowupEnv) (st : CRMState) (contact : ContactRecord)
    (channel replyText : String) : FollowupOutcome × CRMState :=
  let cid := contact.id.getD 0
  let routing := getRoutingInfo st contact channel
  let followupNum := contact.followUpCount + 1
  let autoApprove := shouldAutoApprove st cid env.config.autoApproveThreshold
  let status := if autoApprove then MessageStatus.approved else MessageStatus.draftReady
  let msg : MessageRecord := {
    contactId := some cid
    source := if channel == "LinkedIn" then SourceChannel.linkedin else SourceChannel.gmail
    direction := .outbound
    body := ""
    draftReply := replyText
    aiDraftVersion := replyText
    status := status
    accountId := routing.accountId.getD ""
    sourceMessageId := routing.chatId.getD (routing.threadId.getD "")
    followUpNumber := some followupNum }
  let (createdMsg, crm1) := createMessage st msg
  let exhausted := env.config.totalFollowups ≤ followupNum
  let updates : ContactUpdates := {
    followUpCount := some followupNum
    nextFollowUpDate := some (env.today + env.config.daysBetween)
    followUpChannel := some channel
    followUpStatus := if exhausted then some "Exhausted" else none
    conversationStage := if exhausted then some ConversationStage.closedLost else none }
  let crm2 := if exhausted then logAudit crm1 .followUpExhausted else crm1
  let crm3 := updateContact crm2 cid updates
  (.created createdMsg updates exhausted, logAudit crm3 .followUpCreated)

/-- One iteration of `_process_due_followups`: reply check (pause), pending
check, channel logic, routing, drafting, then `followupCreate`.  A drafting
exception is caught per contact and counted as skipped. -/
def followupStep (env : FollowupEnv) (st : CRMState) (contact : ContactRecord) :
    FollowupOutcome × CRMState :=
  let cid := contact.id.getD 0
  if contact.lastOutboundAt.isSome && hasRecentInbound st cid contact.lastOutboundAt then
    let crm1 := updateContact st cid { followUpStatus := some "Paused" }
    (.paused, logAudit crm1 .followUpPaused)
  else if hasPendingOutbound st cid then
    (.skippedPending, st)
  else
    match determineChannel contact env.config with
    | none => (.skippedNoChannel, st)
    | some channel =>
      let history := formatConversationHistory (getMessagesForContact st cid)
      match env.draft contact channel history (contact.followUpCount + 1) with
      | .error e => (.skippedError e, st)
      | .ok replyText => followupCreate env st contact channel replyText

/-- `_process_due_followups` stats. -/
structure FollowupStats where
  drafted : Nat := 0
  autoApproved : Nat := 0
  paused : Nat := 0
  exhausted : Nat := 0
  skipped : Nat := 0
  deriving DecidableEq, Repr

/-- `followup._process_due_followups`: fold the per-contact step over the
active-and-due query. -/
def processDueFollowups (env : FollowupEnv) (st : CRMState) : FollowupStats × CRMState :=
  (getContactsForFollowup st env.today).foldl
    (fun acc contact =>
      let (outcome, st2) := followupStep env acc.2 contact
      match outcome with
      | .paused => ({ acc.1 with paused := acc.1.paused + 1 }, st2)
      | .skippedPending => ({ acc.1 with skipped := acc.1.skipped + 1 }, st2)
      | .skippedNoChannel => ({ acc.1 with skipped := acc.1.skipped + 1 }, st2)
      | .skippedError _ => ({ acc.1 with skipped := acc.1.skipped + 1 }, st2)
      | .created m _ ex =>
        let s1 := if ex then { acc.1 with exhausted := acc.1.exhausted + 1 } else acc.1
        if m.status == .approved then
          ({ s1 with autoApproved := s1.autoApproved + 1 }, st2)
        else
          ({ s1 with drafted := s1.drafted + 1 }, st2))
    ({}, st)

/-! ## `sdr/ai/learner.py` with `sdr/db.py`: the self-learning module

SQLite `learning_log` rows carry an autoincrement id and a
`datetime('now')` creation stamp; both are nondecreasing in insertion
order.  The model stamps each insert from a strictly increasing clock
(rows created within the same second are returned in rowid order). -/

/-- One row of the `learning_log` table. -/
structure LearnedRule where
  id : Nat
  ruleText : String
  confidence : ℚ
  active : Bool
  createdAt : Nat
  deactivatedAt : Option Nat := none
  deriving DecidableEq, Repr

/-- The learner's slice of local durable state. -/
structure LearnDB where
  rules : List LearnedRule := []
  nextId : Nat := 0
  clock : Nat := 0
  localAudits : Nat := 0
  deriving DecidableEq, Repr

/-- `db.get_active_learned_rules`: active rules ordered by creation date. -/
def getActiveLearnedRules (db : LearnDB) : List LearnedRule :=
  sortAscBy (fun r => r.createdAt) (db.rules.filter (fun r => r.active))

/-- `db.insert_learned_rule`. -/
def insertLearnedRule (db : LearnDB) (ruleText : String) (confidence : ℚ) : LearnDB :=
  { db with
    rules := db.rules ++ [{ id := db.nextId, ruleText := ruleText, confidence := confidence,
                            active := true, createdAt := db.clock }]
    nextId := db.nextId + 1
    clock := db.clock + 1 }

/-- `db.deactivate_learned_rule`: soft delete (never removes the row). -/
def deactivateLearnedRule (db : LearnDB) (rid : Nat) : LearnDB :=
  { db with rules := db.rules.map (fun r =>
      if r.id == rid then { r with active := false, deactivatedAt := some db.clock } else r) }

/-- A candidate rule emitted by the extraction tool call. -/
structure Candidate where
  ruleText : String
  confidence : ℚ
  deriving DecidableEq, Repr

/-- An `(AI draft, human edit)` pair mined by `_fetch_edited_messages`. -/
structure EditPair where
  aiDraft : String
  humanEdit : String
  channel : String
  leadCategory : String
  editDistance : ℚ
  deriving DecidableEq, Repr

/-- External collaborators of the learner: the mined edit pairs (the
Airtable query result) and the LLM rule extraction (fallible). -/
structure LearnEnv where
  editPairs : List EditPair
  analyze : List EditPair → List LearnedRule → Except String (List Candidate)

/-- `run_learning_cycle` stats. -/
structure LearnStats where
  messagesAnalyzed : Nat
  newRules : Nat
  skippedReason : Option String
  deriving DecidableEq, Repr

/-- The `0.7` confidence threshold of `run_learning_cycle`, written as the
already-reduced rational `7/10` (numerator and denominator given directly,
so the comparison evaluates by computation; `confThreshold_eq` below checks
it is the rational `7/10`). -/
def confThreshold : ℚ := ⟨7, 10, by decide, by decide⟩

/-- Step 4 of `run_learning_cycle`: store every candidate whose confidence
is strictly above `0.7`; returns the new state and the stored count. -/
def storeRules (db : LearnDB) : List Candidate → LearnDB × Nat
  | [] => (db, 0)
  | c :: cs =>
    if confThreshold < c.confidence then
      let (db2, n) := storeRules (insertLearnedRule db c.ruleText c.confidence) cs
      (db2, n + 1)
    else
      storeRules db cs

/-- Step 5 of `run_learning_cycle`: if the active count exceeds the cap,
deactivate the oldest excess active rules. -/
def capActiveRules (db : LearnDB) (maxActiveRules : Nat) : LearnDB :=
  let allActive := getActiveLearnedRules db
  if maxActiveRules < allActive.length then
    (allActive.take (allActive.length - maxActiveRules)).foldl
      (fun d r => deactivateLearnedRule d r.id) db
  else db

/-- `SelfLearner.run_learning_cycle`: skip on insufficient signal, extract
candidates against the current active rules, store those above the
confidence threshold, cap the active set, audit.  An extraction exception
propagates with no stores. -/
def runLearningCycle (env : LearnEnv) (db : LearnDB)
    (maxActiveRules : Nat := 10) (minMessages : Nat := 3) :
    Except String (LearnStats × LearnDB) :=
  let pairs := env.editPairs
  if pairs.length < minMessages then
    .ok ({ messagesAnalyzed := 0, newRules := 0,
           skippedReason := some ("Only " ++ toString pairs.length ++
             " edited messages (need " ++ toString minMessages ++ ")") }, db)
  else
    match env.analyze pairs (getActiveLearnedRules db) with
    | .error e => .error e
    | .ok cands =>
      let (db2, stored) := storeRules db cands
      let db3 := capActiveRules db2 maxActiveRules
      .ok ({ messagesAnalyzed := pairs.length, newRules := stored, skippedReason := none },
           { db3 with localAudits := db3.localAudits + 1 })

/-! ## Theorems: the frozen claims -/

/-- A stand-in similarity ratio satisfying the documented
`SequenceMatcher.ratio` contract on identical inputs, used to instantiate
ratio-parametric theorems on concrete inputs. -/
def ratioStub (a b : String) : ℚ :=
  if a = b then 1 else 1 / 2

theorem ratioStub_self (s : String) : ratioStub s s = 1 := by
  simp [ratioStub]

theorem round3_zero : round3 0 = 0 := by
  norm_num [round3]

/-- C9: `compute_edit_distance` returns `0.0` on two empty inputs, `1.0`
when exactly one input is empty, `0.0` on two identical non-empty inputs
(by the `ratio(s, s) = 1` contract of the similarity collaborator), and
otherwise `1 − ratio` rounded to 3 decimals. -/
theorem C9_edit_distance_boundary (ratio : String → String → ℚ)
    (hsame : ∀ s, ratio s s = 1) :
    computeEditDistance ratio "" "" = 0 ∧
    (∀ a b : String, a.isEmpty ≠ b.isEmpty → computeEditDistance ratio a b = 1) ∧
    (∀ s : String, ¬s.isEmpty → computeEditDistance ratio s s = 0) ∧
    (∀ a b : String, ¬a.isEmpty → ¬b.isEmpty →
      computeEditDistance ratio a b = round3 (1 - ratio a b)) := by
  refine ⟨by simp [computeEditDistance, show "".isEmpty = true from rfl], ?_, ?_, ?_⟩
  · intro a b hne
    cases ha : a.isEmpty <;> cases hb : b.isEmpty <;>
      simp_all [computeEditDistance]
  · intro s hs
    simp only [Bool.not_eq_true] at hs
    simp [computeEditDistance, hs, hsame s, round3_zero]
  · intro a b ha hb
    simp only [Bool.not_eq_true] at ha hb
    simp [computeEditDistance, ha, hb]

/-- C9 witness: the boundary facts at concrete inputs through a concrete
ratio function satisfying the contract. -/
theorem C9_edit_distance_boundary_witness :
    computeEditDistance ratioStub "" "" = 0 ∧
    computeEditDistance ratioStub "x" "" = 1 ∧
    computeEditDistance ratioStub "hello" "hello" = 0 := by
  have h := C9_edit_distance_boundary ratioStub ratioStub_self
  exact ⟨h.1, h.2.1 "x" "" (by decide), h.2.2.1 "hello" (by decide)⟩

/-- C5: `merge_contact_data` produces no update for an already non-empty
field (email, profile-url, company, title), always increments the
interaction count and bumps the last-contact date, and promotes the source
channel to Both exactly when the existing single channel differs from the
(single-channel) message's channel; a contact already at Both is left
unchanged. -/
theorem C5_merge_never_overwrites (existing : ContactRecord) (msg : InboundMessage)
    (hsrc : msg.source ≠ .both) :
    (strTruthy existing.email = true → (mergeContactData existing msg).email = none) ∧
    (strTruthy existing.linkedinUrl = true → (mergeContactData existing msg).linkedinUrl = none) ∧
    (strTruthy existing.company = true → (mergeContactData existing msg).company = none) ∧
    (strTruthy existing.title = true → (mergeContactData existing msg).title = none) ∧
    (mergeContactData existing msg).interactionCount = some (existing.interactionCount + 1) ∧
    (mergeContactData existing msg).lastContact = some msg.receivedAt ∧
    ((mergeContactData existing msg).sourceChannel = some .both ↔
      existing.sourceChannel ≠ .both ∧ existing.sourceChannel ≠ msg.source) ∧
    (existing.sourceChannel = .both → (mergeContactData existing msg).sourceChannel = none) := by
  refine ⟨fun h => by simp [mergeContactData, h], fun h => by simp [mergeContactData, h],
    fun h => by simp [mergeContactData, h], fun h => by simp [mergeContactData, h],
    rfl, rfl, ?_, ?_⟩
  · cases hE : existing.sourceChannel <;> cases hM : msg.source <;>
      simp_all [mergeContactData, shouldUpdateSourceChannel]
  · intro h
    simp [mergeContactData, shouldUpdateSourceChannel, h]

/-- C5 witness: a fully-populated Gmail contact merged with a LinkedIn
message — no field updates, count incremented, date bumped, channel
promoted to Both. -/
theorem C5_merge_never_overwrites_witness :
    (strTruthy (some "a@b.c") = true →
      (mergeContactData
        { name := "Ann", email := some "a@b.c", linkedinUrl := some "li",
          company := some "Acme", title := some "CEO", sourceChannel := .gmail,
          interactionCount := 3 }
        { source := .linkedin, sourceMessageId := "m1", senderName := "Ann",
          senderEmail := some "other@b.c", body := "hi", receivedAt := 7 }).email = none) ∧
    (mergeContactData
        { name := "Ann", email := some "a@b.c", linkedinUrl := some "li",
          company := some "Acme", title := some "CEO", sourceChannel := .gmail,
          interactionCount := 3 }
        { source := .linkedin, sourceMessageId := "m1", senderName := "Ann",
          senderEmail := some "other@b.c", body := "hi", receivedAt := 7 }).interactionCount
      = some 4 := by
  have h := C5_merge_never_overwrites
    { name := "Ann", email := some "a@b.c", linkedinUrl := some "li",
      company := some "Acme", title := some "CEO", sourceChannel := .gmail,
      interactionCount := 3 }
    { source := .linkedin, sourceMessageId := "m1", senderName := "Ann",
      senderEmail := some "other@b.c", body := "hi", receivedAt := 7 }
    (by decide)
  exact ⟨h.1, h.2.2.2.2.1⟩

/-- Two existing contacts that share the name and (case-insensitively) the
company: name matching yields two candidates and the company tiebreak does
not single one out. -/
def dedupAmbiguousState : CRMState := {
  contacts := [
    { id := some 0, name := "John Smith", company := some "Acme", sourceChannel := .gmail },
    { id := some 1, name := "John Smith", company := some "acme", sourceChannel := .linkedin }]
  nextId := 2 }

/-- A message with no email or profile-url whose name and company match both
contacts of `dedupAmbiguousState`. -/
def dedupAmbiguousMsg : InboundMessage := {
  source := .gmail
  sourceMessageId := "m9"
  senderName := "John Smith"
  senderCompany := some "Acme"
  body := "hi"
  receivedAt := 1 }

/-- C4 counterexample: with two name candidates that *both* match the
message's company case-insensitively the situation is still ambiguous, yet
`find_existing_contact` does not return "no match" — it guesses the first
company hit. -/
theorem C4_dedup_matching_order_counterexample :
    1 < (findContactsByName dedupAmbiguousState "John Smith").length ∧
    ((findContactsByName dedupAmbiguousState "John Smith").filter (fun c =>
        strTruthy c.company &&
        lowerChars (c.company.getD "").toList
          == lowerChars ((dedupAmbiguousMsg.senderCompany).getD "").toList)).length = 2 ∧
    (findExistingContact dedupAmbiguousState dedupAmbiguousMsg).map (fun c => c.id)
      = some (some 0) := by
  refine ⟨by decide, by decide, by decide⟩

/-- C4 (amended): matching tries email first, then profile-url, then name,
short-circuiting on the first hit (an email hit wins outright); name
matching is skipped entirely for the literal sender name `"Unknown"`; and
with multiple name candidates the *first* candidate with an exact
case-insensitive company match is returned — no match only when no
candidate matches the company or the message carries no company. -/
theorem C4_dedup_matching_order (st : CRMState) (msg : InboundMessage) :
    (∀ c, strTruthy msg.senderEmail = true →
      findContactByEmail st (msg.senderEmail.getD "") = some c →
      findExistingContact st msg = some c) ∧
    (msg.senderName = "Unknown" → strTruthy msg.senderEmail = false →
      strTruthy msg.senderLinkedinUrl = false →
      findExistingContact st msg = none) ∧
    ((if strTruthy msg.senderEmail then findContactByEmail st (msg.senderEmail.getD "") else none) = none →
     (if strTruthy msg.senderLinkedinUrl then findContactByLinkedinUrl st (msg.senderLinkedinUrl.getD "") else none) = none →
     msg.senderName ≠ "" → msg.senderName ≠ "Unknown" →
     1 < (findContactsByName st msg.senderName).length →
     findExistingContact st msg =
       if strTruthy msg.senderCompany then
         (findContactsByName st msg.senderName).find? (fun c =>
           strTruthy c.company &&
           lowerChars (c.company.getD "").toList
             == lowerChars ((msg.senderCompany).getD "").toList)
       else none) := by
  refine ⟨?_, ?_, ?_⟩
  · intro c ht hf
    simp [findExistingContact, ht, hf]
  · intro hU he hl
    simp [findExistingContact, he, hl, hU]
  · intro h1 h2 hn hnu hlen
    have hne : msg.senderName.isEmpty = false := by
      simp [String.isEmpty, String.endPos_eq_zero]
      exact hn
    have hbeq : (msg.senderName == "Unknown") = false := by
      simpa using hnu
    have hlen1 : ((findContactsByName st msg.senderName).length == 1) = false := by
      simp only [beq_eq_false_iff_ne]
      omega
    simp [findExistingContact, h1, h2, hne, hbeq, hlen1, hlen]
    intro h
    exact absurd h hnu

/-- C4 witness: email-priority and Unknown-skip at concrete inputs. -/
theorem C4_dedup_matching_order_witness :
    findExistingContact
      { contacts := [{ id := some 0, name := "Zed", email := some "z@x.io" }], nextId := 1 }
      { source := .gmail, sourceMessageId := "w1", senderName := "Someone Else",
        senderEmail := some "z@x.io", senderLinkedinUrl := some "nope",
        body := "hi", receivedAt := 1 }
      = some { id := some 0, name := "Zed", email := some "z@x.io" } ∧
    findExistingContact
      { contacts := [{ id := some 0, name := "Unknown" }], nextId := 1 }
      { source := .linkedin, sourceMessageId := "w2", senderName := "Unknown",
        body := "hi", receivedAt := 1 }
      = none := by
  constructor
  · exact (C4_dedup_matching_order
      { contacts := [{ id := some 0, name := "Zed", email := some "z@x.io" }], nextId := 1 }
      { source := .gmail, sourceMessageId := "w1", senderName := "Someone Else",
        senderEmail := some "z@x.io", senderLinkedinUrl := some "nope",
        body := "hi", receivedAt := 1 }).1
      { id := some 0, name := "Zed", email := some "z@x.io" } (by decide) (by decide)
  · exact (C4_dedup_matching_order
      { contacts := [{ id := some 0, name := "Unknown" }], nextId := 1 }
      { source := .linkedin, sourceMessageId := "w2", senderName := "Unknown",
        body := "hi", receivedAt := 1 }).2.1 rfl (by decide) (by decide)

/-! ### Ledger lemmas shared by the pipeline claims -/

theorem isMessageProcessed_markFailed (l : Ledger) (s i e : String) :
    isMessageProcessed (markMessageFailed l s i e) s i = true := by
  by_cases h : isMessageProcessed l s i = true
  · simp only [markMessageFailed, h, if_true]
    rcases List.any_eq_true.mp h with ⟨x, hx, hkey⟩
    refine List.any_eq_true.mpr ⟨_, List.mem_map_of_mem _ hx, ?_⟩
    simp only [hkey, if_true]
    simpa [LedgerEntry.keyIs] using hkey
  · simp only [markMessageFailed, h, if_false, Bool.not_eq_true] at *
    simp [isMessageProcessed, h, LedgerEntry.keyIs]

theorem isMessageProcessed_markProcessed (l : Ledger) (s i status : String)
    (mId cId : Option Nat) :
    isMessageProcessed (markMessageProcessed l s i status mId cId) s i = true := by
  by_cases h : isMessageProcessed l s i = true
  · simp only [markMessageProcessed, h, if_true]
    rcases List.any_eq_true.mp h with ⟨x, hx, hkey⟩
    refine List.any_eq_true.mpr ⟨_, List.mem_map_of_mem _ hx, ?_⟩
    simp only [hkey, if_true]
    simpa [LedgerEntry.keyIs] using hkey
  · simp only [markMessageProcessed, h, if_false, Bool.not_eq_true] at *
    simp [isMessageProcessed, h, LedgerEntry.keyIs]

/-- A pipeline environment whose LLM adapters always raise, used to drive
the failure paths on concrete inputs. -/
def envStub : PipelineEnv := {
  classify := fun _ _ _ => .error "stub"
  draft := fun _ _ _ => .error "stub"
  enrich := none }

/-- A minimal fresh inbound message. -/
def msgStub : InboundMessage :=
  { source := .gmail, sourceMessageId := "m1", senderName := "Bo", body := "hi", receivedAt := 1 }

/-- A state whose ledger already holds a row for `msgStub`'s key. -/
def stStubProcessed : SysState :=
  { ledger := [{ source := "Gmail", sourceMessageId := "m1" }] }

/-- C10: the idempotency check is satisfied by *any* ledger row, including
one written by `mark_message_failed`; hence once a failure is recorded,
every later `process_message` call with the same key returns `None` without
touching any state. -/
theorem C10_failed_messages_never_retried :
    (∀ (l : Ledger) (s i e : String),
      isMessageProcessed (markMessageFailed l s i e) s i = true) ∧
    (∀ (env : PipelineEnv) (st : SysState) (msg : InboundMessage),
      isMessageProcessed st.ledger msg.source.str msg.sourceMessageId = true →
      processMessage env st msg = (none, st)) := by
  refine ⟨isMessageProcessed_markFailed, ?_⟩
  intro env st msg h
  simp [processMessage, h]

/-- C10 witness: a failure recorded on an empty ledger satisfies the check,
and a pre-seeded ledger row makes `process_message` a strict no-op. -/
theorem C10_failed_messages_never_retried_witness :
    isMessageProcessed (markMessageFailed [] "Gmail" "m1" "boom") "Gmail" "m1" = true ∧
    processMessage envStub stStubProcessed msgStub = (none, stStubProcessed) :=
  ⟨C10_failed_messages_never_retried.1 [] "Gmail" "m1" "boom",
   C10_failed_messages_never_retried.2 envStub stStubProcessed msgStub (by decide)⟩

/-- The success continuation always returns a `some` message id. -/
theorem finalizeMessage_not_none {st2 : SysState} {msg : InboundMessage}
    {contact : ContactRecord} {cls : LeadClassification} {dr : String}
    {status : MessageStatus} {s : SysState}
    (h : finalizeMessage st2 msg contact cls dr status = (none, s)) : False := by
  unfold finalizeMessage at h
  split at h <;> (dsimp only at h; simp at h)

/-- When `process_message` returns `None`, the ledger holds a row for the
message's key: either it already did (the skip path) or the failure path
just wrote one via `mark_message_failed`. -/
theorem processMessage_none_marked (env : PipelineEnv) (st : SysState)
    (msg : InboundMessage) (st2 : SysState)
    (h : processMessage env st msg = (none, st2)) :
    isMessageProcessed st2.ledger msg.source.str msg.sourceMessageId = true := by
  unfold processMessage at h
  split at h
  case isTrue hp =>
    cases h
    exact hp
  case isFalse hp =>
    split at h
    split at h
    split at h
    · cases h
      exact isMessageProcessed_markFailed ..
    · split at h
      · split at h
        · cases h
          exact isMessageProcessed_markFailed ..
        · exact (finalizeMessage_not_none h).elim
      · exact (finalizeMessage_not_none h).elim

/-- One batch iteration never increments the `failed` counter: the failure
path has already written a `failed` ledger row, so the re-check classifies
the message as skipped. -/
theorem processBatchStep_failed_eq (env : PipelineEnv) (acc : SysState × BatchStats)
    (m : InboundMessage) :
    ((processBatchStep env acc m).2).failed = acc.2.failed := by
  unfold processBatchStep
  cases hP : processMessage env acc.1 m with
  | mk r s2 =>
    cases r with
    | some i => rfl
    | none =>
      have hm := processMessage_none_marked env acc.1 m s2 hP
      simp [hm]

theorem processBatch_foldl_failed (env : PipelineEnv) (msgs : List InboundMessage) :
    ∀ acc : SysState × BatchStats,
      ((msgs.foldl (processBatchStep env) acc).2).failed = acc.2.failed := by
  induction msgs with
  | nil => intro acc; rfl
  | cons m ms ih =>
    intro acc
    rw [List.foldl_cons, ih (processBatchStep env acc m), processBatchStep_failed_eq]

/-- A pipeline environment whose classifier raises, driving the
failure-after-idempotency-check path. -/
def envClassifyFails : PipelineEnv := {
  classify := fun _ _ _ => .error "API error"
  draft := fun _ _ _ => .ok { replyText := "x" }
  enrich := none }

/-- A fresh inbound Gmail message not yet in the ledger. -/
def msgFresh : InboundMessage := {
  source := .gmail
  sourceMessageId := "g1"
  senderName := "Dana"
  senderEmail := some "dana@x.io"
  body := "hello"
  receivedAt := 10 }

/-- C2 (code bug): a fresh message whose classification throws after the
idempotency check is counted as *skipped*, not failed — `mark_message_failed`
writes a ledger row, so the batch loop's `is_message_processed` re-check is
true.  The ledger itself records the failure, and in general the `failed`
counter of `process_batch` can never move off zero. -/
theorem C2_batch_failure_counted_as_skipped :
    (processBatch envClassifyFails {} [msgFresh]).1
      = { total := 1, processed := 0, skipped := 1, failed := 0 } ∧
    ((processBatch envClassifyFails {} [msgFresh]).2.ledger.map
      (fun entry => (entry.source, entry.sourceMessageId, entry.status, entry.attempts)))
      = [("Gmail", "g1", "failed", 1)] ∧
    (∀ (env : PipelineEnv) (st : SysState) (msgs : List InboundMessage),
      (processBatch env st msgs).1.failed = 0) := by
  refine ⟨by decide, by decide, ?_⟩
  intro env st msgs
  unfold processBatch
  exact processBatch_foldl_failed env msgs _

/-! ### Frame and append lemmas for the idempotency claim -/

/-- Number of Message rows carrying a given `Source Message ID`. -/
def countMessagesWithKey (st : CRMState) (sid : String) : Nat :=
  (st.messages.filter (fun m => m.sourceMessageId == sid)).length

/-- When no row carries the key yet, `create_message` appends exactly one
new row (there is nothing for the inbound dedup check to find). -/
theorem createMessage_append (st : CRMState) (rec : MessageRecord)
    (h : countMessagesWithKey st rec.sourceMessageId = 0) :
    createMessage st rec =
      ({ rec with id := some st.nextId },
       { st with messages := st.messages ++ [{ rec with id := some st.nextId }],
                 nextId := st.nextId + 1 }) := by
  unfold createMessage
  split
  case h_1 existing heq =>
    exfalso
    split at heq
    · unfold findMessageBySourceId at heq
      have hmem := List.mem_of_find?_eq_some heq
      have hp := List.find?_some heq
      have hnil : st.messages.filter (fun m => m.sourceMessageId == rec.sourceMessageId) = [] :=
        List.length_eq_zero.mp h
      exact absurd hp (by simpa using List.filter_eq_nil_iff.mp hnil _ hmem)
    · simp at heq
  case h_2 heq => rfl

theorem upsertContact_messages (st : CRMState) (c : ContactRecord) :
    ((upsertContact st c).2).messages = st.messages := by
  unfold upsertContact
  dsimp only
  split <;> rfl

theorem upsertContactPipeline_messages (st : SysState) (msg : InboundMessage) :
    ((upsertContactPipeline st msg).2).crm.messages = st.crm.messages := by
  unfold upsertContactPipeline
  split
  · dsimp only
    split <;> rfl
  · dsimp only
    exact upsertContact_messages st.crm _

theorem enrichContactStep_messages (f : ContactRecord → Except String (Option EnrichData))
    (st : SysState) (contact : ContactRecord) :
    ((enrichContactStep f st contact).2).crm.messages = st.crm.messages := by
  unfold enrichContactStep
  split <;> rfl

/-- The success continuation leaves exactly one row with the message's key
and marks the ledger `processed`. -/
theorem finalizeMessage_spec (st2 : SysState) (msg : InboundMessage) (contact : ContactRecord)
    (cls : LeadClassification) (dr : String) (status : MessageStatus)
    (h : countMessagesWithKey st2.crm msg.sourceMessageId = 0) :
    countMessagesWithKey (finalizeMessage st2 msg contact cls dr status).2.crm
      msg.sourceMessageId = 1 ∧
    isMessageProcessed (finalizeMessage st2 msg contact cls dr status).2.ledger
      msg.source.str msg.sourceMessageId = true := by
  unfold finalizeMessage
  dsimp only
  rw [createMessage_append _ _ h]
  dsimp only
  constructor
  · simp only [countMessagesWithKey] at h ⊢
    split <;> simp [logAudit, updateContact, mapContact, List.filter_append, h]
  · exact isMessageProcessed_markProcessed ..

/-- C1: starting from a state with no Message row for the key, a successful
`process_message` call leaves exactly one Message row with that
`(source, source_message_id)` key, and a second call with the identical
`InboundMessage` is a strict no-op: it performs no CRM or ledger writes and
returns `None`. -/
theorem C1_pipeline_idempotency (env : PipelineEnv) (st : SysState) (msg : InboundMessage)
    (i : Nat) (st1 : SysState)
    (hclean : countMessagesWithKey st.crm msg.sourceMessageId = 0)
    (hrun : processMessage env st msg = (some i, st1)) :
    countMessagesWithKey st1.crm msg.sourceMessageId = 1 ∧
    processMessage env st1 msg = (none, st1) := by
  unfold processMessage at hrun
  split at hrun
  case isTrue hp => simp at hrun
  case isFalse hp =>
    split at hrun
    rename_i p contact stA hU
    split at hrun
    rename_i q eData stB hE
    have hstA : stA.crm.messages = st.crm.messages := by
      have hh := upsertContactPipeline_messages st msg
      rw [hU] at hh
      exact hh
    have hstB : stB.crm.messages = stA.crm.messages := by
      cases hEn : env.enrich with
      | none =>
        rw [hEn] at hE
        cases hE
        rfl
      | some f =>
        rw [hEn] at hE
        dsimp only at hE
        have hh := enrichContactStep_messages f stA contact
        rw [hE] at hh
        exact hh
    have hcB : countMessagesWithKey stB.crm msg.sourceMessageId = 0 := by
      simp only [countMessagesWithKey, hstB, hstA]
      exact hclean
    split at hrun
    · simp at hrun
    · rename_i r cls hC
      split at hrun
      · split at hrun
        · simp at hrun
        · rename_i s d hD
          dsimp only at hrun
          have hspec := finalizeMessage_spec stB msg contact cls d.replyText .draftReady hcB
          rw [hrun] at hspec
          refine ⟨hspec.1, ?_⟩
          unfold processMessage
          simp [hspec.2]
      · dsimp only at hrun
        have hspec := finalizeMessage_spec stB msg contact cls "" .statusNew hcB
        rw [hrun] at hspec
        refine ⟨hspec.1, ?_⟩
        unfold processMessage
        simp [hspec.2]

/-- A pipeline environment whose classifier and drafter always succeed. -/
def envC1 : PipelineEnv := {
  classify := fun _ _ _ => .ok {
    category := .warm
    confidence := 9/10
    reasoning := "r"
    detectedIntent := "i"
    detectedSignals := ["s"]
    shouldReply := true
    conversationStage := .engaging
    icpMatchScore := 1/2 }
  draft := fun _ _ _ => .ok { replyText := "Thanks!" }
  enrich := none }

/-- A fresh inbound message for the idempotency witness. -/
def msgC1 : InboundMessage := {
  source := .gmail
  sourceMessageId := "k1"
  senderName := "Eve"
  senderEmail := some "eve@x.io"
  body := "yo"
  receivedAt := 3 }

/-- The state after the first (successful) pipeline run on `msgC1`. -/
def c1State : SysState := (processMessage envC1 {} msgC1).2

/-- The message id returned by the first pipeline run on `msgC1`. -/
def c1Id : Nat := ((processMessage envC1 {} msgC1).1).getD 0

/-- C1 witness: one concrete run creates exactly one row for the key and
the re-run is a strict no-op. -/
theorem C1_pipeline_idempotency_witness :
    countMessagesWithKey c1State.crm "k1" = 1 ∧
    processMessage envC1 c1State msgC1 = (none, c1State) :=
  C1_pipeline_idempotency envC1 {} msgC1 c1Id c1State (by decide) rfl

/-! ### Follow-up engine claims -/

/-- `create_message` for an outbound record skips the inbound dedup check
and always appends a fresh row. -/
theorem createMessage_outbound (st : CRMState) (m : MessageRecord)
    (hdir : m.direction = .outbound) :
    createMessage st m =
      ({ m with id := some st.nextId },
       { st with messages := st.messages ++ [{ m with id := some st.nextId }],
                 nextId := st.nextId + 1 }) := by
  have hcond : (!m.sourceMessageId.isEmpty && m.direction == MessageDirection.inbound) = false := by
    simp [hdir]
  unfold createMessage
  rw [hcond]
  rfl

/-- `_should_auto_approve` characterised: at least `t` Sent outbound
messages carrying an edit distance, and the most recent `t` of them all at
distance exactly `0.0`. -/
theorem shouldAutoApprove_iff (st : CRMState) (cid t : Nat) :
    shouldAutoApprove st cid t = true ↔
      (t ≤ ((getMessagesForContact st cid (some .outbound)).filter
              (fun mm => mm.status == .sent && mm.editDistance.isSome)).length ∧
       ∀ mm ∈ (sortDescBy (fun mm => mm.sentAt.getD 0)
                ((getMessagesForContact st cid (some .outbound)).filter
                  (fun mm => mm.status == .sent && mm.editDistance.isSome))).take t,
         mm.editDistance = some 0) := by
  unfold shouldAutoApprove
  dsimp only
  split
  case isTrue hlt =>
    simp only [Bool.false_eq_true, false_iff, not_and]
    intro hle
    omega
  case isFalse hge =>
    rw [List.all_eq_true]
    constructor
    · intro hall
      exact ⟨by omega, fun mm hmm => by simpa using hall mm hmm⟩
    · intro hand mm hmm
      simpa using hand.2 mm hmm

/-- Extract the created message of a follow-up outcome. -/
def FollowupOutcome.createdMsg : FollowupOutcome → MessageRecord
  | .created m _ _ => m
  | _ => { source := .gmail, direction := .outbound, body := "" }

/-- Extract the contact-update dict of a follow-up outcome. -/
def FollowupOutcome.createdUpd : FollowupOutcome → ContactUpdates
  | .created _ u _ => u
  | _ => {}

/-- Extract the exhaustion flag of a follow-up outcome. -/
def FollowupOutcome.createdEx : FollowupOutcome → Bool
  | .created _ _ e => e
  | _ => false

/-- The status of the message a `followupCreate` emits is decided by
`_should_auto_approve` against the pre-existing state. -/
theorem followupCreate_msg_status (env : FollowupEnv) (st : CRMState)
    (contact : ContactRecord) (channel replyText : String) :
    ((followupCreate env st contact channel replyText).1.createdMsg).status =
      (if shouldAutoApprove st (contact.id.getD 0) env.config.autoApproveThreshold
       then MessageStatus.approved else MessageStatus.draftReady) := by
  unfold followupCreate
  dsimp only
  rw [createMessage_outbound _ _ rfl]
  rfl

/-- The contact-update dict a `followupCreate` emits. -/
theorem followupCreate_upd (env : FollowupEnv) (st : CRMState)
    (contact : ContactRecord) (channel replyText : String) :
    (followupCreate env st contact channel replyText).1.createdUpd =
      { followUpCount := some (contact.followUpCount + 1)
        nextFollowUpDate := some (env.today + env.config.daysBetween)
        followUpChannel := some channel
        followUpStatus :=
          if env.config.totalFollowups ≤ contact.followUpCount + 1 then some "Exhausted" else none
        conversationStage :=
          if env.config.totalFollowups ≤ contact.followUpCount + 1
          then some ConversationStage.closedLost else none } := by
  unfold followupCreate
  dsimp only
  rw [createMessage_outbound _ _ rfl]
  rfl

/-- A `created` outcome of `followupStep` comes from `followupCreate` on
some channel and drafted text. -/
theorem followupStep_created_eq (env : FollowupEnv) (st : CRMState)
    (contact : ContactRecord) (m : MessageRecord) (upd : ContactUpdates) (ex : Bool)
    (st2 : CRMState)
    (h : followupStep env st contact = (.created m upd ex, st2)) :
    ∃ channel replyText,
      followupCreate env st contact channel replyText = (.created m upd ex, st2) := by
  unfold followupStep at h
  dsimp only at h
  by_cases h1 : (contact.lastOutboundAt.isSome &&
      hasRecentInbound st (contact.id.getD 0) contact.lastOutboundAt) = true
  · rw [if_pos h1] at h
    simp at h
  · rw [if_neg h1] at h
    by_cases h2 : hasPendingOutbound st (contact.id.getD 0) = true
    · rw [if_pos h2] at h
      simp at h
    · rw [if_neg h2] at h
      cases hch : determineChannel contact env.config with
      | none =>
        rw [hch] at h
        simp at h
      | some channel =>
        rw [hch] at h
        dsimp only at h
        cases hdr : env.draft contact channel
            (formatConversationHistory (getMessagesForContact st (contact.id.getD 0)))
            (contact.followUpCount + 1) with
        | error e =>
          rw [hdr] at h
          simp at h
        | ok replyText =>
          rw [hdr] at h
          exact ⟨channel, replyText, h⟩

/-- C6: a follow-up created by the cadence engine carries status Approved or
DraftReady, and Approved exactly when the contact has at least the
configured threshold of prior Sent outbound messages with a recorded edit
distance whose most recent `threshold` are all at distance exactly `0.0`. -/
theorem C6_auto_approval_threshold (env : FollowupEnv) (st : CRMState)
    (contact : ContactRecord) (m : MessageRecord) (upd : ContactUpdates) (ex : Bool)
    (st2 : CRMState)
    (h : followupStep env st contact = (.created m upd ex, st2)) :
    (m.status = .approved ∨ m.status = .draftReady) ∧
    (m.status = .approved ↔
      (env.config.autoApproveThreshold ≤
        ((getMessagesForContact st (contact.id.getD 0) (some .outbound)).filter
          (fun mm => mm.status == .sent && mm.editDistance.isSome)).length ∧
       ∀ mm ∈ (sortDescBy (fun mm => mm.sentAt.getD 0)
                ((getMessagesForContact st (contact.id.getD 0) (some .outbound)).filter
                  (fun mm => mm.status == .sent && mm.editDistance.isSome))).take
                env.config.autoApproveThreshold,
         mm.editDistance = some 0)) := by
  obtain ⟨channel, replyText, hc⟩ := followupStep_created_eq env st contact m upd ex st2 h
  have hst := followupCreate_msg_status env st contact channel replyText
  rw [hc] at hst
  dsimp only [FollowupOutcome.createdMsg] at hst
  constructor
  · rw [hst]
    cases hsa : shouldAutoApprove st (contact.id.getD 0) env.config.autoApproveThreshold <;>
      simp [hsa]
  · rw [hst, ← shouldAutoApprove_iff st (contact.id.getD 0) env.config.autoApproveThreshold]
    cases hsa : shouldAutoApprove st (contact.id.getD 0) env.config.autoApproveThreshold <;>
      simp [hsa]

/-- The follow-up environment of the auto-approval witnesses. -/
def c6Env : FollowupEnv := {
  config := { totalFollowups := 8, linkedinFollowups := 4, daysBetween := 3,
              daysBeforeActivation := 3, autoApproveThreshold := 2 }
  today := 50
  draft := fun _ _ _ _ => .ok "hey there" }

/-- A contact in an active cadence with a LinkedIn URL on file. -/
def c6Contact : ContactRecord := {
  id := some 1
  name := "Kim"
  linkedinUrl := some "https://linkedin.com/in/kim"
  followUpCount := 0
  followUpStatus := "Active"
  nextFollowUpDate := some 50 }

/-- Two prior Sent outbound messages, both sent completely unedited. -/
def c6StateAllZero : CRMState := {
  contacts := [c6Contact]
  messages := [
    { id := some 10, contactId := some 1, source := .linkedin, direction := .outbound,
      body := "", draftReply := "a", status := .sent, editDistance := some 0,
      sentAt := some 1, sourceMessageId := "chat1" },
    { id := some 11, contactId := some 1, source := .linkedin, direction := .outbound,
      body := "", draftReply := "b", status := .sent, editDistance := some 0,
      sentAt := some 2, sourceMessageId := "chat1" }]
  nextId := 12 }

/-- The same state except the most recent send was meaningfully edited. -/
def c6StateOneEdited : CRMState := {
  contacts := [c6Contact]
  messages := [
    { id := some 10, contactId := some 1, source := .linkedin, direction := .outbound,
      body := "", draftReply := "a", status := .sent, editDistance := some 0,
      sentAt := some 1, sourceMessageId := "chat1" },
    { id := some 11, contactId := some 1, source := .linkedin, direction := .outbound,
      body := "", draftReply := "b", status := .sent, editDistance := some 1,
      sentAt := some 2, sourceMessageId := "chat1" }]
  nextId := 12 }

/-- C6 witness: with exactly 2 prior sent messages at distance 0.0 and
threshold 2 the next follow-up is Approved; with one of the last 2 at a
nonzero distance it is DraftReady. -/
theorem C6_auto_approval_threshold_witness :
    ((followupStep c6Env c6StateAllZero c6Contact).1.createdMsg).status = .approved ∧
    ((followupStep c6Env c6StateOneEdited c6Contact).1.createdMsg).status = .draftReady := by
  constructor
  · have h := C6_auto_approval_threshold c6Env c6StateAllZero c6Contact
      ((followupStep c6Env c6StateAllZero c6Contact).1.createdMsg)
      ((followupStep c6Env c6StateAllZero c6Contact).1.createdUpd)
      ((followupStep c6Env c6StateAllZero c6Contact).1.createdEx)
      ((followupStep c6Env c6StateAllZero c6Contact).2) rfl
    exact h.2.mpr (by decide)
  · have h := C6_auto_approval_threshold c6Env c6StateOneEdited c6Contact
      ((followupStep c6Env c6StateOneEdited c6Contact).1.createdMsg)
      ((followupStep c6Env c6StateOneEdited c6Contact).1.createdUpd)
      ((followupStep c6Env c6StateOneEdited c6Contact).1.createdEx)
      ((followupStep c6Env c6StateOneEdited c6Contact).2) rfl
    rcases h.1 with ha | hd
    · exact absurd (h.2.mp ha) (by decide)
    · exact hd

/-- C7: a created follow-up's contact update carries the incremented count,
and sets Follow-Up Status to Exhausted together with Conversation Stage to
Closed Lost in that same update exactly when the new count reaches the
total-follow-up quota; and the due-follow-up query only ever returns
contacts whose cadence status is Active — an Exhausted contact is never
selected again. -/
theorem C7_cadence_exhaustion :
    (∀ (env : FollowupEnv) (st : CRMState) (contact : ContactRecord)
       (m : MessageRecord) (upd : ContactUpdates) (ex : Bool) (st2 : CRMState),
      followupStep env st contact = (.created m upd ex, st2) →
      (upd.followUpCount = some (contact.followUpCount + 1) ∧
       ((upd.followUpStatus = some "Exhausted" ∧ upd.conversationStage = some .closedLost) ↔
         env.config.totalFollowups ≤ contact.followUpCount + 1))) ∧
    (∀ (st : CRMState) (today : Nat) (c : ContactRecord),
      c ∈ getContactsForFollowup st today → c.followUpStatus = "Active") := by
  constructor
  · intro env st contact m upd ex st2 h
    obtain ⟨channel, replyText, hc⟩ := followupStep_created_eq env st contact m upd ex st2 h
    have hu := followupCreate_upd env st contact channel replyText
    rw [hc] at hu
    dsimp only [FollowupOutcome.createdUpd] at hu
    rw [hu]
    constructor
    · rfl
    · by_cases hex : env.config.totalFollowups ≤ contact.followUpCount + 1 <;>
        simp [hex]
  · intro st today c hc
    have hf := (List.mem_filter.mp hc).2
    simp only [Bool.and_eq_true] at hf
    simpa using hf.1

/-- The environment of the exhaustion witness: a 3-follow-up quota. -/
def c7Env : FollowupEnv := {
  config := { totalFollowups := 3, linkedinFollowups := 4, daysBetween := 3,
              daysBeforeActivation := 3, autoApproveThreshold := 2 }
  today := 100
  draft := fun _ _ _ _ => .ok "last nudge" }

/-- A contact one follow-up away from the quota. -/
def c7Contact : ContactRecord := {
  id := some 7
  name := "Lee"
  linkedinUrl := some "https://linkedin.com/in/lee"
  followUpCount := 2
  followUpStatus := "Active"
  nextFollowUpDate := some 100 }

/-- The CRM state of the exhaustion witness. -/
def c7State : CRMState := { contacts := [c7Contact], nextId := 8 }

/-- C7 witness: the follow-up that brings the count to the quota sets
Exhausted and Closed Lost in the same update, and the witness contact is
selected only while Active. -/
theorem C7_cadence_exhaustion_witness :
    (((followupStep c7Env c7State c7Contact).1.createdUpd).followUpCount
        = some (c7Contact.followUpCount + 1) ∧
     ((((followupStep c7Env c7State c7Contact).1.createdUpd).followUpStatus = some "Exhausted" ∧
       ((followupStep c7Env c7State c7Contact).1.createdUpd).conversationStage
          = some .closedLost) ↔
       c7Env.config.totalFollowups ≤ c7Contact.followUpCount + 1)) ∧
    c7Contact.followUpStatus = "Active" :=
  ⟨C7_cadence_exhaustion.1 c7Env c7State c7Contact
      ((followupStep c7Env c7State c7Contact).1.createdMsg)
      ((followupStep c7Env c7State c7Contact).1.createdUpd)
      ((followupStep c7Env c7State c7Contact).1.createdEx)
      ((followupStep c7Env c7State c7Contact).2) rfl,
   C7_cadence_exhaustion.2 c7State 100 c7Contact (by decide)⟩

/-! ### Outbound sender claims -/

/-- A non-empty string's `isEmpty` is `false`. -/
theorem isEmpty_false_of_ne (s : String) (h : s ≠ "") : s.isEmpty = false := by
  simp [String.isEmpty, String.endPos_eq_zero]
  exact h

/-- Updating a message leaves its lookup as the field-updated row. -/
theorem getMessage_updateMessage (st : CRMState) (mid : Nat) (u : MessageUpdates) :
    getMessage (updateMessage st mid u) mid =
      (getMessage st mid).map (fun mm => applyMessageUpdates mm u) := by
  unfold getMessage updateMessage
  dsimp only
  rw [List.find?_map]
  have hpf : ((fun m => m.id == some mid) ∘
      fun m => if (m.id == some mid) = true then applyMessageUpdates m u else m) =
      (fun (m : MessageRecord) => m.id == some mid) := by
    funext m
    by_cases h : m.id = some mid <;> simp [h, applyMessageUpdates]
  rw [hpf]
  cases hf : List.find? (fun m => m.id == some mid) st.messages with
  | none => rfl
  | some x =>
    have hx : x.id = some mid := by simpa using List.find?_some hf
    simp [hx]

/-- A message-field update does not change which contact a message links
to. -/
theorem getContactForMessage_updateMessage (st : CRMState) (mid : Nat) (u : MessageUpdates) :
    getContactForMessage (updateMessage st mid u) mid = getContactForMessage st mid := by
  unfold getContactForMessage
  rw [getMessage_updateMessage]
  cases hm : getMessage st mid with
  | none => rfl
  | some cur => rfl

/-- The send-dispatch tail marks one message at most. -/
theorem outboundFinish_count_le_one (env : OutboundEnv) (st : CRMState) (mid : Nat)
    (ed : Option ℚ) (reqs : List SendReq) (res : Except String Unit) :
    (outboundFinish env st mid ed reqs res).1 ≤ 1 := by
  unfold outboundFinish
  split <;> simp

/-- Each iteration of the outbound loop sends at most one message. -/
theorem outboundStep_count_le_one (env : OutboundEnv) (st : CRMState) (m : MessageRecord) :
    (outboundStep env st m).1 ≤ 1 := by
  rcases hres : outboundStep env st m with ⟨c, s, log⟩
  show c ≤ 1
  unfold outboundStep at hres
  repeat' (first | split at hres | dsimp only at hres)
  all_goals
    first
      | (cases hres; simp)
      | (have hc := congrArg Prod.fst hres
         dsimp only at hc
         subst hc
         apply outboundFinish_count_le_one)

/-- The sent count of the outbound loop never exceeds the number of
approved messages the query returned. -/
theorem processApprovedMessages_count_le (env : OutboundEnv) (st : CRMState) :
    (processApprovedMessages env st).1 ≤ (getApprovedMessages st).length := by
  unfold processApprovedMessages
  have haux : ∀ (l : List MessageRecord) (acc : Nat × CRMState × List SendReq),
      (l.foldl (fun acc m =>
        let (cnt, s, log) := acc
        let (c2, s2, log2) := outboundStep env s m
        (cnt + c2, s2, log ++ log2)) acc).1 ≤ acc.1 + l.length := by
    intro l
    induction l with
    | nil => intro acc; simp
    | cons a l ih =>
      intro acc
      obtain ⟨cnt, s, log⟩ := acc
      refine le_trans (ih _) ?_
      have hc := outboundStep_count_le_one env s a
      simp only [List.length_cons]
      try dsimp only
      omega
  simpa using haux (getApprovedMessages st) (0, st, [])

/-- An approved LinkedIn message whose frozen AI draft version is empty:
the state and message of the C3 counterexample. -/
def cxMsg : MessageRecord := {
  id := some 0
  contactId := some 1
  source := .linkedin
  direction := .outbound
  body := ""
  draftReply := "hi there"
  status := .approved
  aiDraftVersion := ""
  accountId := "acc1"
  sourceMessageId := "chat9" }

/-- The contact linked from `cxMsg`. -/
def cxContact : ContactRecord := { id := some 1, name := "Pat", conversationStage := .new }

/-- The CRM state of the C3 counterexample. -/
def cxState : CRMState := { contacts := [cxContact], messages := [cxMsg], nextId := 2 }

/-- The outbound environment of the C3 counterexample: the send succeeds. -/
def cxEnv : OutboundEnv := { ratio := fun _ _ => 1, send := fun _ => .ok (), now := 77 }

/-- C3 counterexample: a successful send of an approved message whose
frozen AI-draft-version is empty is marked Sent with a sent timestamp, yet
*no* edit distance is persisted — the claim's "the edit distance … is
persisted" fails on this input. -/
theorem C3_outbound_sender_counterexample :
    (outboundStep cxEnv cxState cxMsg).1 = 1 ∧
    ((getMessage (outboundStep cxEnv cxState cxMsg).2.1 0).map
        (fun mm => (mm.status, mm.sentAt))) = some (.sent, some 77) ∧
    ((getMessage (outboundStep cxEnv cxState cxMsg).2.1 0).map
        (fun mm => mm.editDistance)) = some none := by
  refine ⟨by decide, by decide, by decide⟩

/-- C3 (amended): for each message of the approved query the loop re-fetches
it and acts on the fresh row: it is skipped with no writes and no send when
the row is gone or no longer Approved; an empty draft is marked Failed with
the empty-reply error and never sent; a successful send updates the message
to Sent with the send timestamp — persisting the edit distance between the
frozen AI draft version and the final draft text exactly when the frozen
version is non-empty — advances the linked contact's last-outbound
timestamp, promotes the conversation stage New→Engaging (no-op otherwise)
and audits; a send exception on either channel marks the message Failed
with the error text and the loop does not retry it; and the loop never
reports more sends than approved messages. -/
theorem C3_outbound_sender_contract (env : OutboundEnv) (st : CRMState) (m : MessageRecord) :
    (getMessage st (m.id.getD 0) = none → outboundStep env st m = (0, st, [])) ∧
    (∀ cur, getMessage st (m.id.getD 0) = some cur → cur.status ≠ .approved →
      outboundStep env st m = (0, st, [])) ∧
    (∀ cur, getMessage st (m.id.getD 0) = some cur → cur.status = .approved →
      cur.draftReply = "" →
      outboundStep env st m =
        (0, updateMessage st (m.id.getD 0)
              { status := some .failed, sendError := some "Draft reply is empty" }, [])) ∧
    (∀ cur ct, getMessage st (m.id.getD 0) = some cur → cur.status = .approved →
      cur.draftReply ≠ "" → cur.source = .linkedin →
      getContactForMessage st (m.id.getD 0) = some ct →
      env.send (SendReq.linkedinSend cur.draftReply cur.accountId cur.sourceMessageId) = .ok () →
      outboundStep env st m =
        (1, logAudit
              (updateContact
                (updateMessage st (m.id.getD 0)
                  { status := some .sent, sentAt := some env.now,
                    editDistance :=
                      if !cur.aiDraftVersion.isEmpty then
                        some (computeEditDistance env.ratio cur.aiDraftVersion cur.draftReply)
                      else none })
                (ct.id.getD 0)
                { lastOutboundAt := some env.now,
                  conversationStage :=
                    if ct.conversationStage == .new then some .engaging else none })
              .sent,
         [SendReq.linkedinSend cur.draftReply cur.accountId cur.sourceMessageId])) ∧
    (∀ cur ct, getMessage st (m.id.getD 0) = some cur → cur.status = .approved →
      cur.draftReply ≠ "" → cur.source = .gmail →
      getContactForMessage st (m.id.getD 0) = some ct → strTruthy ct.email = true →
      env.send (SendReq.gmailSend (ct.email.getD "")
        (("Re: " ++ cur.subject.getD "").trim) cur.draftReply cur.sourceMessageId) = .ok () →
      outboundStep env st m =
        (1, logAudit
              (updateContact
                (updateMessage st (m.id.getD 0)
                  { status := some .sent, sentAt := some env.now,
                    editDistance :=
                      if !cur.aiDraftVersion.isEmpty then
                        some (computeEditDistance env.ratio cur.aiDraftVersion cur.draftReply)
                      else none })
                (ct.id.getD 0)
                { lastOutboundAt := some env.now,
                  conversationStage :=
                    if ct.conversationStage == .new then some .engaging else none })
              .sent,
         [SendReq.gmailSend (ct.email.getD "") (("Re: " ++ cur.subject.getD "").trim)
            cur.draftReply cur.sourceMessageId])) ∧
    (∀ cur e, getMessage st (m.id.getD 0) = some cur → cur.status = .approved →
      cur.draftReply ≠ "" → cur.source = .linkedin →
      env.send (SendReq.linkedinSend cur.draftReply cur.accountId cur.sourceMessageId) = .error e →
      outboundStep env st m =
        (0, updateMessage st (m.id.getD 0) { status := some .failed, sendError := some e },
         [SendReq.linkedinSend cur.draftReply cur.accountId cur.sourceMessageId])) ∧
    (∀ cur ct e, getMessage st (m.id.getD 0) = some cur → cur.status = .approved →
      cur.draftReply ≠ "" → cur.source = .gmail →
      getContactForMessage st (m.id.getD 0) = some ct → strTruthy ct.email = true →
      env.send (SendReq.gmailSend (ct.email.getD "")
        (("Re: " ++ cur.subject.getD "").trim) cur.draftReply cur.sourceMessageId) = .error e →
      outboundStep env st m =
        (0, updateMessage st (m.id.getD 0) { status := some .failed, sendError := some e },
         [SendReq.gmailSend (ct.email.getD "") (("Re: " ++ cur.subject.getD "").trim)
            cur.draftReply cur.sourceMessageId])) ∧
    ((processApprovedMessages env st).1 ≤ (getApprovedMessages st).length) := by
  refine ⟨?_, ?_, ?_, ?_, ?_, ?_, ?_, processApprovedMessages_count_le env st⟩
  · intro h
    unfold outboundStep
    dsimp only
    rw [h]
  · intro cur hm hne
    unfold outboundStep
    dsimp only
    rw [hm]
    dsimp only
    rw [if_pos (by simpa using hne)]
  · intro cur hm happ hdr
    unfold outboundStep
    dsimp only
    rw [hm]
    dsimp only
    rw [if_neg (by simp [happ])]
    rw [if_pos (by rw [hdr]; rfl)]
  · intro cur ct hm happ hdr hsrc hct hok
    unfold outboundStep
    dsimp only
    rw [hm]
    dsimp only
    rw [if_neg (by simp [happ])]
    rw [if_neg (by simp [isEmpty_false_of_ne _ hdr])]
    rw [hsrc]
    dsimp only
    unfold outboundFinish
    rw [hok]
    dsimp only
    rw [getContactForMessage_updateMessage, hct]
  · intro cur ct hm happ hdr hsrc hct hemail hok
    unfold outboundStep
    dsimp only
    rw [hm]
    dsimp only
    rw [if_neg (by simp [happ])]
    rw [if_neg (by simp [isEmpty_false_of_ne _ hdr])]
    rw [hsrc]
    dsimp only
    rw [hct]
    dsimp only
    rw [if_pos hemail]
    unfold outboundFinish
    rw [hok]
    dsimp only
    rw [getContactForMessage_updateMessage, hct]
  · intro cur e hm happ hdr hsrc herr
    unfold outboundStep
    dsimp only
    rw [hm]
    dsimp only
    rw [if_neg (by simp [happ])]
    rw [if_neg (by simp [isEmpty_false_of_ne _ hdr])]
    rw [hsrc]
    dsimp only
    unfold outboundFinish
    rw [herr]
  · intro cur ct e hm happ hdr hsrc hct hemail herr
    unfold outboundStep
    dsimp only
    rw [hm]
    dsimp only
    rw [if_neg (by simp [happ])]
    rw [if_neg (by simp [isEmpty_false_of_ne _ hdr])]
    rw [hsrc]
    dsimp only
    rw [hct]
    dsimp only
    rw [if_pos hemail]
    unfold outboundFinish
    rw [herr]

/-- An approved LinkedIn message carrying a frozen AI draft version, for
the C3 witness. -/
def cyMsg : MessageRecord := {
  id := some 0
  contactId := some 1
  source := .linkedin
  direction := .outbound
  body := ""
  draftReply := "hi there, edited"
  status := .approved
  aiDraftVersion := "hi there"
  accountId := "acc1"
  sourceMessageId := "chat9" }

/-- The contact of the C3 witness, still at stage New. -/
def cyContact : ContactRecord := { id := some 1, name := "Pat", conversationStage := .new }

/-- The CRM state of the C3 witness. -/
def cyState : CRMState := { contacts := [cyContact], messages := [cyMsg], nextId := 2 }

/-- The outbound environment of the C3 witness. -/
def cyEnv : OutboundEnv := { ratio := fun _ _ => 1, send := fun _ => .ok (), now := 88 }

/-- C3 witness: the successful-send conjunct at a concrete state. -/
theorem C3_outbound_sender_contract_witness :
    outboundStep cyEnv cyState cyMsg =
      (1, logAudit
            (updateContact
              (updateMessage cyState 0
                { status := some .sent, sentAt := some 88,
                  editDistance :=
                    if !cyMsg.aiDraftVersion.isEmpty then
                      some (computeEditDistance cyEnv.ratio cyMsg.aiDraftVersion cyMsg.draftReply)
                    else none })
              1
              { lastOutboundAt := some 88,
                conversationStage :=
                  if cyContact.conversationStage == .new then some .engaging else none })
            .sent,
       [SendReq.linkedinSend cyMsg.draftReply cyMsg.accountId cyMsg.sourceMessageId]) :=
  (C3_outbound_sender_contract cyEnv cyState cyMsg).2.2.2.1 cyMsg cyContact rfl rfl
    (by decide) rfl rfl rfl

/-! ### Self-learning claims -/

/-- The rows the insert loop appends for a candidate list, with ids and
creation stamps drawn from consecutive counters. -/
def mkNewRules (i t : Nat) : List Candidate → List LearnedRule
  | [] => []
  | c :: cs =>
    { id := i, ruleText := c.ruleText, confidence := c.confidence,
      active := true, createdAt := t } :: mkNewRules (i + 1) (t + 1) cs

/-- The learner's storage invariant: rows are in strictly increasing id and
creation order, below the id/clock counters. -/
def RulesWF (db : LearnDB) : Prop :=
  db.rules.Pairwise (fun a b => a.id < b.id ∧ a.createdAt < b.createdAt) ∧
  ∀ r ∈ db.rules, r.id < db.nextId ∧ r.createdAt < db.clock

/-- The insert loop appends exactly the candidates whose confidence is
strictly above 0.7, in order. -/
theorem storeRules_eq (cands : List Candidate) : ∀ (db : LearnDB),
    storeRules db cands =
      ({ db with
          rules := db.rules ++
            mkNewRules db.nextId db.clock (cands.filter (fun c => decide (confThreshold < c.confidence)))
          nextId := db.nextId + (cands.filter (fun c => decide (confThreshold < c.confidence))).length
          clock := db.clock + (cands.filter (fun c => decide (confThreshold < c.confidence))).length },
       (cands.filter (fun c => decide (confThreshold < c.confidence))).length) := by
  induction cands with
  | nil => intro db; simp [storeRules, mkNewRules]
  | cons c cs ih =>
    intro db
    by_cases hc : confThreshold < c.confidence
    · rcases hsr : storeRules (insertLearnedRule db c.ruleText c.confidence) cs with ⟨db2, n⟩
      have hstep : storeRules db (c :: cs) = (db2, n + 1) := by
        show (if confThreshold < c.confidence then
                (match storeRules (insertLearnedRule db c.ruleText c.confidence) cs with
                 | (d, k) => (d, k + 1))
              else storeRules db cs) = (db2, n + 1)
        rw [if_pos hc, hsr]
      rw [ih] at hsr
      injection hsr with h1 h2
      subst h1
      subst h2
      rw [hstep]
      unfold insertLearnedRule
      dsimp only
      simp only [List.filter_cons]
      rw [if_pos (by simpa using hc)]
      simp only [mkNewRules, List.length_cons]
      congr 1
      · congr 1 <;> first
          | simp [List.append_assoc]
          | omega
    · have hstep : storeRules db (c :: cs) = storeRules db cs := by
        show (if confThreshold < c.confidence then
                (match storeRules (insertLearnedRule db c.ruleText c.confidence) cs with
                 | (d, k) => (d, k + 1))
              else storeRules db cs) = storeRules db cs
        rw [if_neg hc]
      rw [hstep, ih]
      simp only [List.filter_cons]
      rw [if_neg (by simpa using hc)]

/-- Stable insertion after all existing keys is an append. -/
theorem insertAscBy_append {α : Type} (key : α → Nat) (x : α) (l : List α)
    (h : ∀ y ∈ l, ¬ key x < key y) : insertAscBy key x l = l ++ [x] := by
  induction l with
  | nil => rfl
  | cons y ys ih =>
    unfold insertAscBy
    rw [if_neg (h y (List.mem_cons_self y ys))]
    rw [ih (fun z hz => h z (List.mem_cons_of_mem y hz))]
    rfl

theorem foldl_insertAscBy {α : Type} (key : α → Nat) :
    ∀ (l acc : List α),
      (∀ x ∈ l, ∀ y ∈ acc, ¬ key x < key y) →
      l.Pairwise (fun a b => key a ≤ key b) →
      l.foldl (fun acc x => insertAscBy key x acc) acc = acc ++ l := by
  intro l
  induction l with
  | nil => intro acc _ _; simp
  | cons x xs ih =>
    intro acc hacc hpw
    rw [List.foldl_cons, insertAscBy_append key x acc (hacc x (List.mem_cons_self x xs))]
    rw [ih (acc ++ [x]) ?_ hpw.of_cons]
    · simp
    · intro z hz y hy
      rcases List.mem_append.mp hy with hy1 | hy2
      · exact hacc z (List.mem_cons_of_mem x hz) y hy1
      · have hx : y = x := by simpa using hy2
        subst hx
        have := (List.pairwise_cons.mp hpw).1 z hz
        omega

/-- A stable sort of an already-sorted list is the identity. -/
theorem sortAscBy_id {α : Type} (key : α → Nat) (l : List α)
    (h : l.Pairwise (fun a b => key a ≤ key b)) : sortAscBy key l = l := by
  have hh := foldl_insertAscBy key l [] (by simp) h
  simpa [sortAscBy] using hh

/-- Under the storage invariant the active-rule query is just the filter in
storage (= creation) order. -/
theorem getActive_eq_filter (db : LearnDB)
    (hwf : db.rules.Pairwise (fun a b => a.id < b.id ∧ a.createdAt < b.createdAt)) :
    getActiveLearnedRules db = db.rules.filter (fun r => r.active) := by
  unfold getActiveLearnedRules
  apply sortAscBy_id
  have hs := List.Pairwise.sublist
    (List.filter_sublist (p := fun r => r.active) db.rules) hwf
  exact hs.imp (fun hab => le_of_lt hab.2)

/-- Folding `deactivate_learned_rule` over rows flips exactly the rows with
those ids (the clock is untouched, so all stamps agree). -/
theorem foldl_deactivate_rules : ∀ (ids : List LearnedRule) (db : LearnDB),
    (ids.foldl (fun d r => deactivateLearnedRule d r.id) db) =
      { db with rules := db.rules.map (fun r =>
          if ids.any (fun x => r.id == x.id) then
            { r with active := false, deactivatedAt := some db.clock }
          else r) } := by
  intro ids
  induction ids with
  | nil =>
    intro db
    simp
  | cons i is ih =>
    intro db
    rw [List.foldl_cons, ih (deactivateLearnedRule db i.id)]
    unfold deactivateLearnedRule
    dsimp only
    rw [List.map_map]
    congr 1
    apply List.map_congr_left
    intro r _
    by_cases hi : r.id = i.id
    · by_cases hany : is.any (fun x => r.id == x.id) = true
      · simp [Function.comp, hi, hany]
      · simp only [Bool.not_eq_true] at hany
        simp [Function.comp, hi, hany]
    · have hi' : (r.id == i.id) = false := by simpa using hi
      by_cases hany : is.any (fun x => r.id == x.id) = true
      · simp [Function.comp, hi', hany]
      · simp only [Bool.not_eq_true] at hany
        simp [Function.comp, hi', hany]

/-- Dropping the rows whose ids head a duplicate-free list is `drop`. -/
theorem filter_not_mem_take_ids : ∀ (l : List LearnedRule) (k : Nat),
    l.Pairwise (fun a b => a.id < b.id) →
    l.filter (fun r => !((l.take k).any (fun x => r.id == x.id))) = l.drop k := by
  intro l
  induction l with
  | nil => intro k _; simp
  | cons a as ih =>
    intro k hpw
    cases k with
    | zero => simp
    | succ k =>
      rw [List.take_succ_cons, List.drop_succ_cons, List.filter_cons]
      have hhead : (!((a :: as.take k).any (fun x => a.id == x.id))) = false := by
        simp [List.any_cons]
      rw [hhead]
      simp only [Bool.false_eq_true, if_false]
      have hcong : ∀ r ∈ as,
          (!((a :: as.take k).any (fun x => r.id == x.id))) =
          (!((as.take k).any (fun x => r.id == x.id))) := by
        intro r hr
        have hne : a.id < r.id := (List.pairwise_cons.mp hpw).1 r hr
        have hb : (r.id == a.id) = false := by
          simp only [beq_eq_false_iff_ne, ne_eq]
          omega
        simp [List.any_cons, hb]
      rw [List.filter_congr hcong]
      exact ih k (List.pairwise_cons.mp hpw).2

/-- The stored confidence threshold is the rational `7/10` (that is, `0.7`). -/
theorem confThreshold_eq : confThreshold = 7/10 := by
  unfold confThreshold
  rw [Rat.mk'_eq_divInt, Rat.divInt_eq_div]
  norm_num

/-- Bounds and activeness of the rows the insert loop appends. -/
theorem mkNewRules_mem : ∀ (cs : List Candidate) (i t : Nat) (r : LearnedRule),
    r ∈ mkNewRules i t cs →
      i ≤ r.id ∧ r.id < i + cs.length ∧ t ≤ r.createdAt ∧ r.createdAt < t + cs.length ∧
      r.active = true := by
  intro cs
  induction cs with
  | nil => intro i t r hr; simp [mkNewRules] at hr
  | cons c cs ih =>
    intro i t r hr
    rcases List.mem_cons.mp hr with h | h
    · subst h
      refine ⟨le_refl _, ?_, le_refl _, ?_, rfl⟩ <;> (simp only [List.length_cons]; omega)
    · obtain ⟨h1, h2, h3, h4, h5⟩ := ih (i + 1) (t + 1) r h
      refine ⟨by omega, ?_, by omega, ?_, h5⟩ <;> (simp only [List.length_cons]; omega)

/-- The appended rows are in strictly increasing id and creation order. -/
theorem mkNewRules_pairwise : ∀ (cs : List Candidate) (i t : Nat),
    (mkNewRules i t cs).Pairwise (fun a b => a.id < b.id ∧ a.createdAt < b.createdAt) := by
  intro cs
  induction cs with
  | nil => intro i t; simp [mkNewRules]
  | cons c cs ih =>
    intro i t
    simp only [mkNewRules]
    rw [List.pairwise_cons]
    refine ⟨?_, ih (i + 1) (t + 1)⟩
    intro b hb
    obtain ⟨h1, _, h3, _, _⟩ := mkNewRules_mem cs (i + 1) (t + 1) b hb
    constructor <;> (dsimp only; omega)

/-- One appended row per stored candidate. -/
theorem mkNewRules_length : ∀ (cs : List Candidate) (i t : Nat),
    (mkNewRules i t cs).length = cs.length := by
  intro cs
  induction cs with
  | nil => intro i t; rfl
  | cons c cs ih => intro i t; simp [mkNewRules, ih]

/-- The appended rows carry exactly the candidates' text and confidence,
in order, and all start active. -/
theorem mkNewRules_strip : ∀ (cs : List Candidate) (i t : Nat),
    (mkNewRules i t cs).map (fun r => (r.ruleText, r.confidence, r.active)) =
      cs.map (fun c => (c.ruleText, c.confidence, true)) := by
  intro cs
  induction cs with
  | nil => intro i t; rfl
  | cons c cs ih => intro i t; simp [mkNewRules, ih]

/-- The insert loop preserves the storage invariant. -/
theorem RulesWF_storeRules (db : LearnDB) (cands : List Candidate) (hwf : RulesWF db) :
    RulesWF (storeRules db cands).1 := by
  rw [storeRules_eq]
  unfold RulesWF
  dsimp only
  constructor
  · rw [List.pairwise_append]
    refine ⟨hwf.1, mkNewRules_pairwise _ _ _, ?_⟩
    intro a ha b hb
    have h1 := (hwf.2 a ha).1
    have h1' := (hwf.2 a ha).2
    obtain ⟨h2, _, h3, _, _⟩ := mkNewRules_mem _ _ _ b hb
    exact ⟨by omega, by omega⟩
  · intro r hr
    rcases List.mem_append.mp hr with h | h
    · have := hwf.2 r h
      constructor <;> omega
    · obtain ⟨_, h2, _, h4, _⟩ := mkNewRules_mem _ _ _ r h
      constructor <;> omega

/-- A map that fixes every member is the identity. -/
theorem map_id_of_mem {α : Type} (f : α → α) :
    ∀ (l : List α), (∀ a ∈ l, f a = a) → l.map f = l := by
  intro l
  induction l with
  | nil => intro _; rfl
  | cons x xs ih =>
    intro h
    rw [List.map_cons, h x (List.mem_cons_self x xs),
      ih (fun a ha => h a (List.mem_cons_of_mem x ha))]

/-- Keep only the newest `maxA` entries of a list in creation order (what
FIFO eviction leaves active). -/
def dropExcess (maxA : Nat) (l : List LearnedRule) : List LearnedRule :=
  if maxA < l.length then l.drop (l.length - maxA) else l

/-- Eviction leaves `min` of the previous count and the cap. -/
theorem dropExcess_length (maxA : Nat) (l : List LearnedRule) :
    (dropExcess maxA l).length = min l.length maxA := by
  unfold dropExcess
  split
  · simp only [List.length_drop]
    omega
  · omega

/-- The capping pass: under the storage invariant, the surviving active
rules are exactly the newest `maxA` of the previously active ones, and no
row (id, text, confidence, creation stamp) is removed or altered. -/
theorem capActiveRules_spec (db : LearnDB) (maxA : Nat)
    (hpw : db.rules.Pairwise (fun a b => a.id < b.id ∧ a.createdAt < b.createdAt)) :
    (capActiveRules db maxA).rules.filter (fun r => r.active) =
      dropExcess maxA (db.rules.filter (fun r => r.active)) ∧
    (capActiveRules db maxA).rules.map (fun r => (r.id, r.ruleText, r.confidence, r.createdAt)) =
      db.rules.map (fun r => (r.id, r.ruleText, r.confidence, r.createdAt)) := by
  have hApw : (db.rules.filter (fun r => r.active)).Pairwise (fun a b => a.id < b.id) := by
    have hs := List.Pairwise.sublist
      (List.filter_sublist (p := fun r => r.active) db.rules) hpw
    exact hs.imp (fun hab => hab.1)
  unfold capActiveRules
  dsimp only
  rw [getActive_eq_filter db hpw]
  by_cases hlen : maxA < (db.rules.filter (fun r => r.active)).length
  case neg =>
    rw [if_neg hlen]
    unfold dropExcess
    rw [if_neg hlen]
    exact ⟨rfl, rfl⟩
  case pos =>
    rw [if_pos hlen, foldl_deactivate_rules]
    dsimp only
    constructor
    · rw [List.filter_map]
      have hpt : ∀ r ∈ db.rules,
          ((fun r => r.active) ∘ (fun r =>
            if ((db.rules.filter (fun r => r.active)).take
                  ((db.rules.filter (fun r => r.active)).length - maxA)).any
                (fun x => r.id == x.id) then
              { r with active := false, deactivatedAt := some db.clock }
            else r)) r =
          ((fun r => (!(((db.rules.filter (fun r => r.active)).take
                  ((db.rules.filter (fun r => r.active)).length - maxA)).any
                (fun x => r.id == x.id))) && r.active) r) := by
        intro r _
        by_cases h : (((db.rules.filter (fun r => r.active)).take
            ((db.rules.filter (fun r => r.active)).length - maxA)).any
            (fun x => r.id == x.id)) = true
        · simp [Function.comp, h]
        · simp only [Bool.not_eq_true] at h
          simp [Function.comp, h]
      rw [List.filter_congr hpt, ← List.filter_filter,
        filter_not_mem_take_ids _ _ hApw]
      unfold dropExcess
      rw [if_pos hlen]
      apply map_id_of_mem
      intro r hr
      have hPW2 : ((db.rules.filter (fun r => r.active)).take
            ((db.rules.filter (fun r => r.active)).length - maxA) ++
          (db.rules.filter (fun r => r.active)).drop
            ((db.rules.filter (fun r => r.active)).length - maxA)).Pairwise
          (fun a b => a.id < b.id) := by
        rw [List.take_append_drop]
        exact hApw
      have hrel := (List.pairwise_append.mp hPW2).2.2
      have hnot : (((db.rules.filter (fun r => r.active)).take
          ((db.rules.filter (fun r => r.active)).length - maxA)).any
          (fun x => r.id == x.id)) = false := by
        rw [List.any_eq_false]
        intro x hx
        have := hrel x hx r hr
        simp only [beq_iff_eq]
        omega
      simp [hnot]
    · rw [List.map_map]
      apply List.map_congr_left
      intro r _
      by_cases h : (((db.rules.filter (fun r => r.active)).take
          ((db.rules.filter (fun r => r.active)).length - maxA)).any
          (fun x => r.id == x.id)) = true
      · simp [Function.comp, h]
      · simp only [Bool.not_eq_true] at h
        simp [Function.comp, h]

/-- C8: learned-rule storage and eviction.  When `run_learning_cycle` is
not skipped and extraction succeeds, it appends a new rule row for exactly
the candidates with confidence strictly above 0.7 (reported in the stats),
keeps every pre-existing row in place, stores the new rows active with the
candidates' text and confidence in order; the capping pass then
soft-deletes oldest-first: every row's id, text, confidence and creation
stamp survives into the final state, the rows left active are exactly the
newest `maxA` of the post-insert active rules, and the final active count
is the minimum of the post-insert active count and the cap. -/
theorem C8_rule_storage_and_eviction (env : LearnEnv) (db : LearnDB)
    (maxA minM : Nat) (cands : List Candidate) (stats : LearnStats) (db2 : LearnDB)
    (hwf : RulesWF db)
    (hmin : minM ≤ env.editPairs.length)
    (hana : env.analyze env.editPairs (getActiveLearnedRules db) = .ok cands)
    (hrun : runLearningCycle env db maxA minM = .ok (stats, db2)) :
    stats.newRules =
      (cands.filter (fun c => decide ((7:ℚ)/10 < c.confidence))).length ∧
    (storeRules db cands).1.rules.take db.rules.length = db.rules ∧
    ((storeRules db cands).1.rules.drop db.rules.length).map
        (fun r => (r.ruleText, r.confidence, r.active)) =
      (cands.filter (fun c => decide ((7:ℚ)/10 < c.confidence))).map
        (fun c => (c.ruleText, c.confidence, true)) ∧
    db2.rules.map (fun r => (r.id, r.ruleText, r.confidence, r.createdAt)) =
      (storeRules db cands).1.rules.map
        (fun r => (r.id, r.ruleText, r.confidence, r.createdAt)) ∧
    db2.rules.filter (fun r => r.active) =
      dropExcess maxA ((storeRules db cands).1.rules.filter (fun r => r.active)) ∧
    (db2.rules.filter (fun r => r.active)).length =
      min ((storeRules db cands).1.rules.filter (fun r => r.active)).length maxA := by
  have hq : (fun c : Candidate => decide ((7:ℚ)/10 < c.confidence)) =
      (fun c : Candidate => decide (confThreshold < c.confidence)) := by
    funext c
    rw [confThreshold_eq]
  unfold runLearningCycle at hrun
  dsimp only at hrun
  rw [if_neg (show ¬ env.editPairs.length < minM by omega), hana] at hrun
  dsimp only at hrun
  rcases hsr : storeRules db cands with ⟨dbIns, stored⟩
  have hsr' := hsr
  rw [hsr] at hrun
  dsimp only at hrun
  injection hrun with h
  injection h with hstats hdb2
  subst hstats
  subst hdb2
  have hWF : RulesWF dbIns := by
    have h2 := RulesWF_storeRules db cands hwf
    rw [hsr'] at h2
    exact h2
  have hcap := capActiveRules_spec dbIns maxA hWF.1
  rw [storeRules_eq] at hsr
  injection hsr with hIns hstored
  simp only [hq]
  subst hIns
  dsimp only at hcap ⊢
  refine ⟨hstored.symm, ?_, ?_, hcap.2, hcap.1, ?_⟩
  · exact List.take_left _ _
  · rw [List.drop_left]
    exact mkNewRules_strip _ _ _
  · rw [hcap.1, dropExcess_length]

/-- The learner database of the C8 witness: two active stored rules, with
counters past them. -/
def c8Db : LearnDB :=
  { rules := [
      { id := 0, ruleText := "keep emails short", confidence := 1,
        active := true, createdAt := 0 },
      { id := 1, ruleText := "mention the product", confidence := 1,
        active := true, createdAt := 1 }],
    nextId := 2, clock := 2 }

/-- The candidates the stubbed extraction returns for the C8 witness: one
above the 0.7 threshold, one below. -/
def c8Cands : List Candidate :=
  [{ ruleText := "ask one question", confidence := 1 },
   { ruleText := "low signal", confidence := 0 }]

/-- The C8 witness environment: three mined edit pairs and an extraction
stub returning `c8Cands`. -/
def c8Env : LearnEnv :=
  { editPairs := [
      { aiDraft := "a", humanEdit := "b", channel := "gmail",
        leadCategory := "warm", editDistance := 0 },
      { aiDraft := "c", humanEdit := "d", channel := "gmail",
        leadCategory := "warm", editDistance := 0 },
      { aiDraft := "e", humanEdit := "f", channel := "linkedin",
        leadCategory := "hot", editDistance := 0 }],
    analyze := fun _ _ => .ok c8Cands }

/-- The stats of the C8 witness run (cap 2, minimum 3 messages). -/
def c8Stats : LearnStats :=
  match runLearningCycle c8Env c8Db 2 3 with
  | .ok (s, _) => s
  | .error _ => { messagesAnalyzed := 0, newRules := 0, skippedReason := none }

/-- The final learner database of the C8 witness run. -/
def c8Db2 : LearnDB :=
  match runLearningCycle c8Env c8Db 2 3 with
  | .ok (_, d) => d
  | .error _ => {}

/-- C8 witness: a run over two active rules with cap 2 and one qualifying
candidate out of two extracted satisfies the storage and eviction
contract (the oldest rule is evicted, all three rows survive). -/
theorem C8_rule_storage_and_eviction_witness :
    c8Stats.newRules =
      (c8Cands.filter (fun c => decide ((7:ℚ)/10 < c.confidence))).length ∧
    (storeRules c8Db c8Cands).1.rules.take c8Db.rules.length = c8Db.rules ∧
    ((storeRules c8Db c8Cands).1.rules.drop c8Db.rules.length).map
        (fun r => (r.ruleText, r.confidence, r.active)) =
      (c8Cands.filter (fun c => decide ((7:ℚ)/10 < c.confidence))).map
        (fun c => (c.ruleText, c.confidence, true)) ∧
    c8Db2.rules.map (fun r => (r.id, r.ruleText, r.confidence, r.createdAt)) =
      (storeRules c8Db c8Cands).1.rules.map
        (fun r => (r.id, r.ruleText, r.confidence, r.createdAt)) ∧
    c8Db2.rules.filter (fun r => r.active) =
      dropExcess 2 ((storeRules c8Db c8Cands).1.rules.filter (fun r => r.active)) ∧
    (c8Db2.rules.filter (fun r => r.active)).length =
      min ((storeRules c8Db c8Cands).1.rules.filter (fun r => r.active)).length 2 :=
  C8_rule_storage_and_eviction c8Env c8Db 2 3 c8Cands c8Stats c8Db2
    ⟨by decide, by decide⟩ (by decide) rfl rfl

end SDR
